import Mathlib

/-!
Verification of the credit-code validation engine in `validate_gui.py`.

Strings are modelled as `List Char` (Python `str` is a sequence of Unicode
code points, as is `List Char`).  Each definition below is a direct
translation of the corresponding Python function; comments note the exact
source construct being modelled.
-/

namespace CreditCode

/-- The fixed weight table `WEIGHT` (line 7 of the source). -/
def WEIGHT : List Nat := [1, 3, 9, 27, 19, 26, 16, 17, 20, 29, 25, 13, 8, 24, 10, 30, 28]

/-- The 31-symbol alphabet `BASE_CODE = "0123456789ABCDEFGHJKLMNPQRTUWXY"`
(line 8 of the source), as a list of characters. -/
def BASE_CODE : List Char :=
  ['0', '1', '2', '3', '4', '5', '6', '7', '8', '9',
   'A', 'B', 'C', 'D', 'E', 'F', 'G', 'H', 'J', 'K', 'L', 'M', 'N',
   'P', 'Q', 'R', 'T', 'U', 'W', 'X', 'Y']

/-- `CODE_INDEX_MAP = {char: idx for idx, char in enumerate(BASE_CODE)}`
(line 9 of the source): the resulting finite mapping, tabulated.  The dict
maps each character of `BASE_CODE` to its position, and `dict.get` returns
`None` on any other key. -/
def CODE_INDEX_MAP (c : Char) : Option Nat :=
  if c = '0' then some 0 else if c = '1' then some 1 else
  if c = '2' then some 2 else if c = '3' then some 3 else
  if c = '4' then some 4 else if c = '5' then some 5 else
  if c = '6' then some 6 else if c = '7' then some 7 else
  if c = '8' then some 8 else if c = '9' then some 9 else
  if c = 'A' then some 10 else if c = 'B' then some 11 else
  if c = 'C' then some 12 else if c = 'D' then some 13 else
  if c = 'E' then some 14 else if c = 'F' then some 15 else
  if c = 'G' then some 16 else if c = 'H' then some 17 else
  if c = 'J' then some 18 else if c = 'K' then some 19 else
  if c = 'L' then some 20 else if c = 'M' then some 21 else
  if c = 'N' then some 22 else if c = 'P' then some 23 else
  if c = 'Q' then some 24 else if c = 'R' then some 25 else
  if c = 'T' then some 26 else if c = 'U' then some 27 else
  if c = 'W' then some 28 else if c = 'X' then some 29 else
  if c = 'Y' then some 30 else none

/-- The regex character class `[0-9A-HJ-NPQRTUWXY]` of
`CREDIT_CODE_PATTERN` (line 10 of the source), by code point:
`0`-`9` are 48-57, `A`-`H` are 65-72, `J`-`N` are 74-78, `P`-`R` are
80-82, `T`-`U` are 84-85 and `W`-`Y` are 87-89. -/
def isBaseClassChar (c : Char) : Bool :=
  (48 ≤ c.toNat && c.toNat ≤ 57) || (65 ≤ c.toNat && c.toNat ≤ 72) ||
  (74 ≤ c.toNat && c.toNat ≤ 78) || (80 ≤ c.toNat && c.toNat ≤ 82) ||
  (84 ≤ c.toNat && c.toNat ≤ 85) || (87 ≤ c.toNat && c.toNat ≤ 89)

/-- The code-point ranges of the Unicode general category Nd (decimal
digits), Unicode 15.0.  Python's `\d` in a `str` pattern matches exactly
this category (the pattern is compiled without `re.ASCII`). -/
def ndRanges : List (Nat × Nat) :=
  [(0x30, 0x39), (0x660, 0x669), (0x6F0, 0x6F9), (0x7C0, 0x7C9),
   (0x966, 0x96F), (0x9E6, 0x9EF), (0xA66, 0xA6F), (0xAE6, 0xAEF),
   (0xB66, 0xB6F), (0xBE6, 0xBEF), (0xC66, 0xC6F), (0xCE6, 0xCEF),
   (0xD66, 0xD6F), (0xDE6, 0xDEF), (0xE50, 0xE59), (0xED0, 0xED9),
   (0xF20, 0xF29), (0x1040, 0x1049), (0x1090, 0x1099), (0x17E0, 0x17E9),
   (0x1810, 0x1819), (0x1946, 0x194F), (0x19D0, 0x19D9), (0x1A80, 0x1A89),
   (0x1A90, 0x1A99), (0x1B50, 0x1B59), (0x1BB0, 0x1BB9), (0x1C40, 0x1C49),
   (0x1C50, 0x1C59), (0xA620, 0xA629), (0xA8D0, 0xA8D9), (0xA900, 0xA909),
   (0xA9D0, 0xA9D9), (0xA9F0, 0xA9F9), (0xAA50, 0xAA59), (0xABF0, 0xABF9),
   (0xFF10, 0xFF19), (0x104A0, 0x104A9), (0x10D30, 0x10D39),
   (0x11066, 0x1106F), (0x110F0, 0x110F9), (0x11136, 0x1113F),
   (0x111D0, 0x111D9), (0x112F0, 0x112F9), (0x11450, 0x11459),
   (0x114D0, 0x114D9), (0x11650, 0x11659), (0x116C0, 0x116C9),
   (0x11730, 0x11739), (0x118E0, 0x118E9), (0x11950, 0x11959),
   (0x11C50, 0x11C59), (0x11D50, 0x11D59), (0x11DA0, 0x11DA9),
   (0x11F50, 0x11F59), (0x16A60, 0x16A69), (0x16AC0, 0x16AC9),
   (0x16B50, 0x16B59), (0x1D7CE, 0x1D7FF), (0x1E140, 0x1E149),
   (0x1E2F0, 0x1E2F9), (0x1E4F0, 0x1E4F9), (0x1E950, 0x1E959),
   (0x1FBF0, 0x1FBF9)]

/-- Python's `\d` for `str` patterns: any Unicode decimal digit
(category Nd). -/
def pyIsDigit (c : Char) : Bool :=
  ndRanges.any fun p => p.1 ≤ c.toNat && c.toNat ≤ p.2

/-- A full match of `CREDIT_CODE_PATTERN`, i.e. of
`^[0-9A-HJ-NPQRTUWXY]{2}\d{6}[0-9A-HJ-NPQRTUWXY]{10}$` (line 10 of the
source): exactly 18 characters, positions 0-1 and 8-17 in the restricted
class and positions 2-7 decimal digits.  (`re.match` anchors at the start;
the trailing `$` can only be reached after the 18 fixed single-character
atoms, so a match consumes the whole 18-character string.) -/
def regexMatch : List Char → Bool
  | [a1, a2, d1, d2, d3, d4, d5, d6, b1, b2, b3, b4, b5, b6, b7, b8, b9, b10] =>
    isBaseClassChar a1 && isBaseClassChar a2 &&
    pyIsDigit d1 && pyIsDigit d2 && pyIsDigit d3 &&
    pyIsDigit d4 && pyIsDigit d5 && pyIsDigit d6 &&
    isBaseClassChar b1 && isBaseClassChar b2 && isBaseClassChar b3 &&
    isBaseClassChar b4 && isBaseClassChar b5 && isBaseClassChar b6 &&
    isBaseClassChar b7 && isBaseClassChar b8 && isBaseClassChar b9 &&
    isBaseClassChar b10
  | _ => false

/-- `is_credit_code_simple` (source lines 13-17): `False` for an empty or
non-18-character string, otherwise the result of the pattern match. -/
def is_credit_code_simple (s : List Char) : Bool :=
  if s.isEmpty || s.length != 18 then false else regexMatch s

/-- The accumulation loop of `get_parity_bit` (source lines 24-30):
`total += CODE_INDEX_MAP[s[i]] * WEIGHT[i]` over `i in range(17)`, with the
whole computation failing (Python: early `return -1`) as soon as one
character is missing from the map.  Folding over the first 17 characters
zipped with the 17 weights is the same iteration. -/
def weightedTotal (s : List Char) : Option Nat :=
  ((s.take 17).zip WEIGHT).foldl
    (fun acc cw =>
      match acc with
      | none => none
      | some t =>
        match CODE_INDEX_MAP cw.1 with
        | none => none
        | some v => some (t + v * cw.2))
    (some 0)

/-- The final arithmetic of `get_parity_bit` (source lines 32-33):
`result = 31 - (total % 31); return 0 if result == 31 else result`. -/
def parityOfTotal (total : Nat) : Nat :=
  if 31 - total % 31 = 31 then 0 else 31 - total % 31

/-- `get_parity_bit` (source lines 19-33): `-1` for strings shorter than
17 characters or when an alphabet lookup fails, otherwise the check-digit
index. -/
def get_parity_bit (s : List Char) : Int :=
  if s.length < 17 then -1
  else
    match weightedTotal s with
    | none => -1
    | some total => Int.ofNat (parityOfTotal total)

/-- The check-digit comparison `credit_code[17].upper() == ...` (source
line 44) compares the upper-cased 18th character with a single alphabet
character; this models `upper()` of that one character on the ASCII range,
`a`-`z` (97-122) mapping down by 32 and everything else unchanged.  The
comparison is only reached after the structural pattern has passed, so the
character is one of the 31 ASCII alphabet symbols and the full case
mapping (`pyUpperStr` below) coincides with this one on every input that
reaches it: a multi-character expansion would compare unequal to the
single alphabet character in Python exactly as its first character
differs here. -/
def pyUpper (c : Char) : Char :=
  if 97 ≤ c.toNat ∧ c.toNat ≤ 122 then Char.ofNat (c.toNat - 32) else c

set_option maxHeartbeats 3200000 in
/-- The full uppercase mapping of Python `str.upper()`, tabulated from the
CPython Unicode database (Unicode 14.0; these case mappings are stable
across recent Unicode versions): every code point whose uppercase differs
from itself, paired with its uppercase expansion, which can be more than
one character (for example U+00DF maps to SS and U+FB02 to FL). -/
def upperMapping : List (Nat × List Nat) :=
  [   (0x61, [0x41]), (0x62, [0x42]), (0x63, [0x43]), (0x64, [0x44]),
   (0x65, [0x45]), (0x66, [0x46]), (0x67, [0x47]), (0x68, [0x48]),
   (0x69, [0x49]), (0x6A, [0x4A]), (0x6B, [0x4B]), (0x6C, [0x4C]),
   (0x6D, [0x4D]), (0x6E, [0x4E]), (0x6F, [0x4F]), (0x70, [0x50]),
   (0x71, [0x51]), (0x72, [0x52]), (0x73, [0x53]), (0x74, [0x54]),
   (0x75, [0x55]), (0x76, [0x56]), (0x77, [0x57]), (0x78, [0x58]),
   (0x79, [0x59]), (0x7A, [0x5A]), (0xB5, [0x39C]), (0xDF, [0x53, 0x53]),
   (0xE0, [0xC0]), (0xE1, [0xC1]), (0xE2, [0xC2]), (0xE3, [0xC3]),
   (0xE4, [0xC4]), (0xE5, [0xC5]), (0xE6, [0xC6]), (0xE7, [0xC7]),
   (0xE8, [0xC8]), (0xE9, [0xC9]), (0xEA, [0xCA]), (0xEB, [0xCB]),
   (0xEC, [0xCC]), (0xED, [0xCD]), (0xEE, [0xCE]), (0xEF, [0xCF]),
   (0xF0, [0xD0]), (0xF1, [0xD1]), (0xF2, [0xD2]), (0xF3, [0xD3]),
   (0xF4, [0xD4]), (0xF5, [0xD5]), (0xF6, [0xD6]), (0xF8, [0xD8]),
   (0xF9, [0xD9]), (0xFA, [0xDA]), (0xFB, [0xDB]), (0xFC, [0xDC]),
   (0xFD, [0xDD]), (0xFE, [0xDE]), (0xFF, [0x178]), (0x101, [0x100]),
   (0x103, [0x102]), (0x105, [0x104]), (0x107, [0x106]), (0x109, [0x108]),
   (0x10B, [0x10A]), (0x10D, [0x10C]), (0x10F, [0x10E]), (0x111, [0x110]),
   (0x113, [0x112]), (0x115, [0x114]), (0x117, [0x116]), (0x119, [0x118]),
   (0x11B, [0x11A]), (0x11D, [0x11C]), (0x11F, [0x11E]), (0x121, [0x120]),
   (0x123, [0x122]), (0x125, [0x124]), (0x127, [0x126]), (0x129, [0x128]),
   (0x12B, [0x12A]), (0x12D, [0x12C]), (0x12F, [0x12E]), (0x131, [0x49]),
   (0x133, [0x132]), (0x135, [0x134]), (0x137, [0x136]), (0x13A, [0x139]),
   (0x13C, [0x13B]), (0x13E, [0x13D]), (0x140, [0x13F]), (0x142, [0x141]),
   (0x144, [0x143]), (0x146, [0x145]), (0x148, [0x147]), (0x149, [0x2BC, 0x4E]),
   (0x14B, [0x14A]), (0x14D, [0x14C]), (0x14F, [0x14E]), (0x151, [0x150]),
   (0x153, [0x152]), (0x155, [0x154]), (0x157, [0x156]), (0x159, [0x158]),
   (0x15B, [0x15A]), (0x15D, [0x15C]), (0x15F, [0x15E]), (0x161, [0x160]),
   (0x163, [0x162]), (0x165, [0x164]), (0x167, [0x166]), (0x169, [0x168]),
   (0x16B, [0x16A]), (0x16D, [0x16C]), (0x16F, [0x16E]), (0x171, [0x170]),
   (0x173, [0x172]), (0x175, [0x174]), (0x177, [0x176]), (0x17A, [0x179]),
   (0x17C, [0x17B]), (0x17E, [0x17D]), (0x17F, [0x53]), (0x180, [0x243]),
   (0x183, [0x182]), (0x185, [0x184]), (0x188, [0x187]), (0x18C, [0x18B]),
   (0x192, [0x191]), (0x195, [0x1F6]), (0x199, [0x198]), (0x19A, [0x23D]),
   (0x19E, [0x220]), (0x1A1, [0x1A0]), (0x1A3, [0x1A2]), (0x1A5, [0x1A4]),
   (0x1A8, [0x1A7]), (0x1AD, [0x1AC]), (0x1B0, [0x1AF]), (0x1B4, [0x1B3]),
   (0x1B6, [0x1B5]), (0x1B9, [0x1B8]), (0x1BD, [0x1BC]), (0x1BF, [0x1F7]),
   (0x1C5, [0x1C4]), (0x1C6, [0x1C4]), (0x1C8, [0x1C7]), (0x1C9, [0x1C7]),
   (0x1CB, [0x1CA]), (0x1CC, [0x1CA]), (0x1CE, [0x1CD]), (0x1D0, [0x1CF]),
   (0x1D2, [0x1D1]), (0x1D4, [0x1D3]), (0x1D6, [0x1D5]), (0x1D8, [0x1D7]),
   (0x1DA, [0x1D9]), (0x1DC, [0x1DB]), (0x1DD, [0x18E]), (0x1DF, [0x1DE]),
   (0x1E1, [0x1E0]), (0x1E3, [0x1E2]), (0x1E5, [0x1E4]), (0x1E7, [0x1E6]),
   (0x1E9, [0x1E8]), (0x1EB, [0x1EA]), (0x1ED, [0x1EC]), (0x1EF, [0x1EE]),
   (0x1F0, [0x4A, 0x30C]), (0x1F2, [0x1F1]), (0x1F3, [0x1F1]), (0x1F5, [0x1F4]),
   (0x1F9, [0x1F8]), (0x1FB, [0x1FA]), (0x1FD, [0x1FC]), (0x1FF, [0x1FE]),
   (0x201, [0x200]), (0x203, [0x202]), (0x205, [0x204]), (0x207, [0x206]),
   (0x209, [0x208]), (0x20B, [0x20A]), (0x20D, [0x20C]), (0x20F, [0x20E]),
   (0x211, [0x210]), (0x213, [0x212]), (0x215, [0x214]), (0x217, [0x216]),
   (0x219, [0x218]), (0x21B, [0x21A]), (0x21D, [0x21C]), (0x21F, [0x21E]),
   (0x223, [0x222]), (0x225, [0x224]), (0x227, [0x226]), (0x229, [0x228]),
   (0x22B, [0x22A]), (0x22D, [0x22C]), (0x22F, [0x22E]), (0x231, [0x230]),
   (0x233, [0x232]), (0x23C, [0x23B]), (0x23F, [0x2C7E]), (0x240, [0x2C7F]),
   (0x242, [0x241]), (0x247, [0x246]), (0x249, [0x248]), (0x24B, [0x24A]),
   (0x24D, [0x24C]), (0x24F, [0x24E]), (0x250, [0x2C6F]), (0x251, [0x2C6D]),
   (0x252, [0x2C70]), (0x253, [0x181]), (0x254, [0x186]), (0x256, [0x189]),
   (0x257, [0x18A]), (0x259, [0x18F]), (0x25B, [0x190]), (0x25C, [0xA7AB]),
   (0x260, [0x193]), (0x261, [0xA7AC]), (0x263, [0x194]), (0x265, [0xA78D]),
   (0x266, [0xA7AA]), (0x268, [0x197]), (0x269, [0x196]), (0x26A, [0xA7AE]),
   (0x26B, [0x2C62]), (0x26C, [0xA7AD]), (0x26F, [0x19C]), (0x271, [0x2C6E]),
   (0x272, [0x19D]), (0x275, [0x19F]), (0x27D, [0x2C64]), (0x280, [0x1A6]),
   (0x282, [0xA7C5]), (0x283, [0x1A9]), (0x287, [0xA7B1]), (0x288, [0x1AE]),
   (0x289, [0x244]), (0x28A, [0x1B1]), (0x28B, [0x1B2]), (0x28C, [0x245]),
   (0x292, [0x1B7]), (0x29D, [0xA7B2]), (0x29E, [0xA7B0]), (0x345, [0x399]),
   (0x371, [0x370]), (0x373, [0x372]), (0x377, [0x376]), (0x37B, [0x3FD]),
   (0x37C, [0x3FE]), (0x37D, [0x3FF]), (0x390, [0x399, 0x308, 0x301]), (0x3AC, [0x386]),
   (0x3AD, [0x388]), (0x3AE, [0x389]), (0x3AF, [0x38A]), (0x3B0, [0x3A5, 0x308, 0x301]),
   (0x3B1, [0x391]), (0x3B2, [0x392]), (0x3B3, [0x393]), (0x3B4, [0x394]),
   (0x3B5, [0x395]), (0x3B6, [0x396]), (0x3B7, [0x397]), (0x3B8, [0x398]),
   (0x3B9, [0x399]), (0x3BA, [0x39A]), (0x3BB, [0x39B]), (0x3BC, [0x39C]),
   (0x3BD, [0x39D]), (0x3BE, [0x39E]), (0x3BF, [0x39F]), (0x3C0, [0x3A0]),
   (0x3C1, [0x3A1]), (0x3C2, [0x3A3]), (0x3C3, [0x3A3]), (0x3C4, [0x3A4]),
   (0x3C5, [0x3A5]), (0x3C6, [0x3A6]), (0x3C7, [0x3A7]), (0x3C8, [0x3A8]),
   (0x3C9, [0x3A9]), (0x3CA, [0x3AA]), (0x3CB, [0x3AB]), (0x3CC, [0x38C]),
   (0x3CD, [0x38E]), (0x3CE, [0x38F]), (0x3D0, [0x392]), (0x3D1, [0x398]),
   (0x3D5, [0x3A6]), (0x3D6, [0x3A0]), (0x3D7, [0x3CF]), (0x3D9, [0x3D8]),
   (0x3DB, [0x3DA]), (0x3DD, [0x3DC]), (0x3DF, [0x3DE]), (0x3E1, [0x3E0]),
   (0x3E3, [0x3E2]), (0x3E5, [0x3E4]), (0x3E7, [0x3E6]), (0x3E9, [0x3E8]),
   (0x3EB, [0x3EA]), (0x3ED, [0x3EC]), (0x3EF, [0x3EE]), (0x3F0, [0x39A]),
   (0x3F1, [0x3A1]), (0x3F2, [0x3F9]), (0x3F3, [0x37F]), (0x3F5, [0x395]),
   (0x3F8, [0x3F7]), (0x3FB, [0x3FA]), (0x430, [0x410]), (0x431, [0x411]),
   (0x432, [0x412]), (0x433, [0x413]), (0x434, [0x414]), (0x435, [0x415]),
   (0x436, [0x416]), (0x437, [0x417]), (0x438, [0x418]), (0x439, [0x419]),
   (0x43A, [0x41A]), (0x43B, [0x41B]), (0x43C, [0x41C]), (0x43D, [0x41D]),
   (0x43E, [0x41E]), (0x43F, [0x41F]), (0x440, [0x420]), (0x441, [0x421]),
   (0x442, [0x422]), (0x443, [0x423]), (0x444, [0x424]), (0x445, [0x425]),
   (0x446, [0x426]), (0x447, [0x427]), (0x448, [0x428]), (0x449, [0x429]),
   (0x44A, [0x42A]), (0x44B, [0x42B]), (0x44C, [0x42C]), (0x44D, [0x42D]),
   (0x44E, [0x42E]), (0x44F, [0x42F]), (0x450, [0x400]), (0x451, [0x401]),
   (0x452, [0x402]), (0x453, [0x403]), (0x454, [0x404]), (0x455, [0x405]),
   (0x456, [0x406]), (0x457, [0x407]), (0x458, [0x408]), (0x459, [0x409]),
   (0x45A, [0x40A]), (0x45B, [0x40B]), (0x45C, [0x40C]), (0x45D, [0x40D]),
   (0x45E, [0x40E]), (0x45F, [0x40F]), (0x461, [0x460]), (0x463, [0x462]),
   (0x465, [0x464]), (0x467, [0x466]), (0x469, [0x468]), (0x46B, [0x46A]),
   (0x46D, [0x46C]), (0x46F, [0x46E]), (0x471, [0x470]), (0x473, [0x472]),
   (0x475, [0x474]), (0x477, [0x476]), (0x479, [0x478]), (0x47B, [0x47A]),
   (0x47D, [0x47C]), (0x47F, [0x47E]), (0x481, [0x480]), (0x48B, [0x48A]),
   (0x48D, [0x48C]), (0x48F, [0x48E]), (0x491, [0x490]), (0x493, [0x492]),
   (0x495, [0x494]), (0x497, [0x496]), (0x499, [0x498]), (0x49B, [0x49A]),
   (0x49D, [0x49C]), (0x49F, [0x49E]), (0x4A1, [0x4A0]), (0x4A3, [0x4A2]),
   (0x4A5, [0x4A4]), (0x4A7, [0x4A6]), (0x4A9, [0x4A8]), (0x4AB, [0x4AA]),
   (0x4AD, [0x4AC]), (0x4AF, [0x4AE]), (0x4B1, [0x4B0]), (0x4B3, [0x4B2]),
   (0x4B5, [0x4B4]), (0x4B7, [0x4B6]), (0x4B9, [0x4B8]), (0x4BB, [0x4BA]),
   (0x4BD, [0x4BC]), (0x4BF, [0x4BE]), (0x4C2, [0x4C1]), (0x4C4, [0x4C3]),
   (0x4C6, [0x4C5]), (0x4C8, [0x4C7]), (0x4CA, [0x4C9]), (0x4CC, [0x4CB]),
   (0x4CE, [0x4CD]), (0x4CF, [0x4C0]), (0x4D1, [0x4D0]), (0x4D3, [0x4D2]),
   (0x4D5, [0x4D4]), (0x4D7, [0x4D6]), (0x4D9, [0x4D8]), (0x4DB, [0x4DA]),
   (0x4DD, [0x4DC]), (0x4DF, [0x4DE]), (0x4E1, [0x4E0]), (0x4E3, [0x4E2]),
   (0x4E5, [0x4E4]), (0x4E7, [0x4E6]), (0x4E9, [0x4E8]), (0x4EB, [0x4EA]),
   (0x4ED, [0x4EC]), (0x4EF, [0x4EE]), (0x4F1, [0x4F0]), (0x4F3, [0x4F2]),
   (0x4F5, [0x4F4]), (0x4F7, [0x4F6]), (0x4F9, [0x4F8]), (0x4FB, [0x4FA]),
   (0x4FD, [0x4FC]), (0x4FF, [0x4FE]), (0x501, [0x500]), (0x503, [0x502]),
   (0x505, [0x504]), (0x507, [0x506]), (0x509, [0x508]), (0x50B, [0x50A]),
   (0x50D, [0x50C]), (0x50F, [0x50E]), (0x511, [0x510]), (0x513, [0x512]),
   (0x515, [0x514]), (0x517, [0x516]), (0x519, [0x518]), (0x51B, [0x51A]),
   (0x51D, [0x51C]), (0x51F, [0x51E]), (0x521, [0x520]), (0x523, [0x522]),
   (0x525, [0x524]), (0x527, [0x526]), (0x529, [0x528]), (0x52B, [0x52A]),
   (0x52D, [0x52C]), (0x52F, [0x52E]), (0x561, [0x531]), (0x562, [0x532]),
   (0x563, [0x533]), (0x564, [0x534]), (0x565, [0x535]), (0x566, [0x536]),
   (0x567, [0x537]), (0x568, [0x538]), (0x569, [0x539]), (0x56A, [0x53A]),
   (0x56B, [0x53B]), (0x56C, [0x53C]), (0x56D, [0x53D]), (0x56E, [0x53E]),
   (0x56F, [0x53F]), (0x570, [0x540]), (0x571, [0x541]), (0x572, [0x542]),
   (0x573, [0x543]), (0x574, [0x544]), (0x575, [0x545]), (0x576, [0x546]),
   (0x577, [0x547]), (0x578, [0x548]), (0x579, [0x549]), (0x57A, [0x54A]),
   (0x57B, [0x54B]), (0x57C, [0x54C]), (0x57D, [0x54D]), (0x57E, [0x54E]),
   (0x57F, [0x54F]), (0x580, [0x550]), (0x581, [0x551]), (0x582, [0x552]),
   (0x583, [0x553]), (0x584, [0x554]), (0x585, [0x555]), (0x586, [0x556]),
   (0x587, [0x535, 0x552]), (0x10D0, [0x1C90]), (0x10D1, [0x1C91]), (0x10D2, [0x1C92]),
   (0x10D3, [0x1C93]), (0x10D4, [0x1C94]), (0x10D5, [0x1C95]), (0x10D6, [0x1C96]),
   (0x10D7, [0x1C97]), (0x10D8, [0x1C98]), (0x10D9, [0x1C99]), (0x10DA, [0x1C9A]),
   (0x10DB, [0x1C9B]), (0x10DC, [0x1C9C]), (0x10DD, [0x1C9D]), (0x10DE, [0x1C9E]),
   (0x10DF, [0x1C9F]), (0x10E0, [0x1CA0]), (0x10E1, [0x1CA1]), (0x10E2, [0x1CA2]),
   (0x10E3, [0x1CA3]), (0x10E4, [0x1CA4]), (0x10E5, [0x1CA5]), (0x10E6, [0x1CA6]),
   (0x10E7, [0x1CA7]), (0x10E8, [0x1CA8]), (0x10E9, [0x1CA9]), (0x10EA, [0x1CAA]),
   (0x10EB, [0x1CAB]), (0x10EC, [0x1CAC]), (0x10ED, [0x1CAD]), (0x10EE, [0x1CAE]),
   (0x10EF, [0x1CAF]), (0x10F0, [0x1CB0]), (0x10F1, [0x1CB1]), (0x10F2, [0x1CB2]),
   (0x10F3, [0x1CB3]), (0x10F4, [0x1CB4]), (0x10F5, [0x1CB5]), (0x10F6, [0x1CB6]),
   (0x10F7, [0x1CB7]), (0x10F8, [0x1CB8]), (0x10F9, [0x1CB9]), (0x10FA, [0x1CBA]),
   (0x10FD, [0x1CBD]), (0x10FE, [0x1CBE]), (0x10FF, [0x1CBF]), (0x13F8, [0x13F0]),
   (0x13F9, [0x13F1]), (0x13FA, [0x13F2]), (0x13FB, [0x13F3]), (0x13FC, [0x13F4]),
   (0x13FD, [0x13F5]), (0x1C80, [0x412]), (0x1C81, [0x414]), (0x1C82, [0x41E]),
   (0x1C83, [0x421]), (0x1C84, [0x422]), (0x1C85, [0x422]), (0x1C86, [0x42A]),
   (0x1C87, [0x462]), (0x1C88, [0xA64A]), (0x1D79, [0xA77D]), (0x1D7D, [0x2C63]),
   (0x1D8E, [0xA7C6]), (0x1E01, [0x1E00]), (0x1E03, [0x1E02]), (0x1E05, [0x1E04]),
   (0x1E07, [0x1E06]), (0x1E09, [0x1E08]), (0x1E0B, [0x1E0A]), (0x1E0D, [0x1E0C]),
   (0x1E0F, [0x1E0E]), (0x1E11, [0x1E10]), (0x1E13, [0x1E12]), (0x1E15, [0x1E14]),
   (0x1E17, [0x1E16]), (0x1E19, [0x1E18]), (0x1E1B, [0x1E1A]), (0x1E1D, [0x1E1C]),
   (0x1E1F, [0x1E1E]), (0x1E21, [0x1E20]), (0x1E23, [0x1E22]), (0x1E25, [0x1E24]),
   (0x1E27, [0x1E26]), (0x1E29, [0x1E28]), (0x1E2B, [0x1E2A]), (0x1E2D, [0x1E2C]),
   (0x1E2F, [0x1E2E]), (0x1E31, [0x1E30]), (0x1E33, [0x1E32]), (0x1E35, [0x1E34]),
   (0x1E37, [0x1E36]), (0x1E39, [0x1E38]), (0x1E3B, [0x1E3A]), (0x1E3D, [0x1E3C]),
   (0x1E3F, [0x1E3E]), (0x1E41, [0x1E40]), (0x1E43, [0x1E42]), (0x1E45, [0x1E44]),
   (0x1E47, [0x1E46]), (0x1E49, [0x1E48]), (0x1E4B, [0x1E4A]), (0x1E4D, [0x1E4C]),
   (0x1E4F, [0x1E4E]), (0x1E51, [0x1E50]), (0x1E53, [0x1E52]), (0x1E55, [0x1E54]),
   (0x1E57, [0x1E56]), (0x1E59, [0x1E58]), (0x1E5B, [0x1E5A]), (0x1E5D, [0x1E5C]),
   (0x1E5F, [0x1E5E]), (0x1E61, [0x1E60]), (0x1E63, [0x1E62]), (0x1E65, [0x1E64]),
   (0x1E67, [0x1E66]), (0x1E69, [0x1E68]), (0x1E6B, [0x1E6A]), (0x1E6D, [0x1E6C]),
   (0x1E6F, [0x1E6E]), (0x1E71, [0x1E70]), (0x1E73, [0x1E72]), (0x1E75, [0x1E74]),
   (0x1E77, [0x1E76]), (0x1E79, [0x1E78]), (0x1E7B, [0x1E7A]), (0x1E7D, [0x1E7C]),
   (0x1E7F, [0x1E7E]), (0x1E81, [0x1E80]), (0x1E83, [0x1E82]), (0x1E85, [0x1E84]),
   (0x1E87, [0x1E86]), (0x1E89, [0x1E88]), (0x1E8B, [0x1E8A]), (0x1E8D, [0x1E8C]),
   (0x1E8F, [0x1E8E]), (0x1E91, [0x1E90]), (0x1E93, [0x1E92]), (0x1E95, [0x1E94]),
   (0x1E96, [0x48, 0x331]), (0x1E97, [0x54, 0x308]), (0x1E98, [0x57, 0x30A]), (0x1E99, [0x59, 0x30A]),
   (0x1E9A, [0x41, 0x2BE]), (0x1E9B, [0x1E60]), (0x1EA1, [0x1EA0]), (0x1EA3, [0x1EA2]),
   (0x1EA5, [0x1EA4]), (0x1EA7, [0x1EA6]), (0x1EA9, [0x1EA8]), (0x1EAB, [0x1EAA]),
   (0x1EAD, [0x1EAC]), (0x1EAF, [0x1EAE]), (0x1EB1, [0x1EB0]), (0x1EB3, [0x1EB2]),
   (0x1EB5, [0x1EB4]), (0x1EB7, [0x1EB6]), (0x1EB9, [0x1EB8]), (0x1EBB, [0x1EBA]),
   (0x1EBD, [0x1EBC]), (0x1EBF, [0x1EBE]), (0x1EC1, [0x1EC0]), (0x1EC3, [0x1EC2]),
   (0x1EC5, [0x1EC4]), (0x1EC7, [0x1EC6]), (0x1EC9, [0x1EC8]), (0x1ECB, [0x1ECA]),
   (0x1ECD, [0x1ECC]), (0x1ECF, [0x1ECE]), (0x1ED1, [0x1ED0]), (0x1ED3, [0x1ED2]),
   (0x1ED5, [0x1ED4]), (0x1ED7, [0x1ED6]), (0x1ED9, [0x1ED8]), (0x1EDB, [0x1EDA]),
   (0x1EDD, [0x1EDC]), (0x1EDF, [0x1EDE]), (0x1EE1, [0x1EE0]), (0x1EE3, [0x1EE2]),
   (0x1EE5, [0x1EE4]), (0x1EE7, [0x1EE6]), (0x1EE9, [0x1EE8]), (0x1EEB, [0x1EEA]),
   (0x1EED, [0x1EEC]), (0x1EEF, [0x1EEE]), (0x1EF1, [0x1EF0]), (0x1EF3, [0x1EF2]),
   (0x1EF5, [0x1EF4]), (0x1EF7, [0x1EF6]), (0x1EF9, [0x1EF8]), (0x1EFB, [0x1EFA]),
   (0x1EFD, [0x1EFC]), (0x1EFF, [0x1EFE]), (0x1F00, [0x1F08]), (0x1F01, [0x1F09]),
   (0x1F02, [0x1F0A]), (0x1F03, [0x1F0B]), (0x1F04, [0x1F0C]), (0x1F05, [0x1F0D]),
   (0x1F06, [0x1F0E]), (0x1F07, [0x1F0F]), (0x1F10, [0x1F18]), (0x1F11, [0x1F19]),
   (0x1F12, [0x1F1A]), (0x1F13, [0x1F1B]), (0x1F14, [0x1F1C]), (0x1F15, [0x1F1D]),
   (0x1F20, [0x1F28]), (0x1F21, [0x1F29]), (0x1F22, [0x1F2A]), (0x1F23, [0x1F2B]),
   (0x1F24, [0x1F2C]), (0x1F25, [0x1F2D]), (0x1F26, [0x1F2E]), (0x1F27, [0x1F2F]),
   (0x1F30, [0x1F38]), (0x1F31, [0x1F39]), (0x1F32, [0x1F3A]), (0x1F33, [0x1F3B]),
   (0x1F34, [0x1F3C]), (0x1F35, [0x1F3D]), (0x1F36, [0x1F3E]), (0x1F37, [0x1F3F]),
   (0x1F40, [0x1F48]), (0x1F41, [0x1F49]), (0x1F42, [0x1F4A]), (0x1F43, [0x1F4B]),
   (0x1F44, [0x1F4C]), (0x1F45, [0x1F4D]), (0x1F50, [0x3A5, 0x313]), (0x1F51, [0x1F59]),
   (0x1F52, [0x3A5, 0x313, 0x300]), (0x1F53, [0x1F5B]), (0x1F54, [0x3A5, 0x313, 0x301]), (0x1F55, [0x1F5D]),
   (0x1F56, [0x3A5, 0x313, 0x342]), (0x1F57, [0x1F5F]), (0x1F60, [0x1F68]), (0x1F61, [0x1F69]),
   (0x1F62, [0x1F6A]), (0x1F63, [0x1F6B]), (0x1F64, [0x1F6C]), (0x1F65, [0x1F6D]),
   (0x1F66, [0x1F6E]), (0x1F67, [0x1F6F]), (0x1F70, [0x1FBA]), (0x1F71, [0x1FBB]),
   (0x1F72, [0x1FC8]), (0x1F73, [0x1FC9]), (0x1F74, [0x1FCA]), (0x1F75, [0x1FCB]),
   (0x1F76, [0x1FDA]), (0x1F77, [0x1FDB]), (0x1F78, [0x1FF8]), (0x1F79, [0x1FF9]),
   (0x1F7A, [0x1FEA]), (0x1F7B, [0x1FEB]), (0x1F7C, [0x1FFA]), (0x1F7D, [0x1FFB]),
   (0x1F80, [0x1F08, 0x399]), (0x1F81, [0x1F09, 0x399]), (0x1F82, [0x1F0A, 0x399]), (0x1F83, [0x1F0B, 0x399]),
   (0x1F84, [0x1F0C, 0x399]), (0x1F85, [0x1F0D, 0x399]), (0x1F86, [0x1F0E, 0x399]), (0x1F87, [0x1F0F, 0x399]),
   (0x1F88, [0x1F08, 0x399]), (0x1F89, [0x1F09, 0x399]), (0x1F8A, [0x1F0A, 0x399]), (0x1F8B, [0x1F0B, 0x399]),
   (0x1F8C, [0x1F0C, 0x399]), (0x1F8D, [0x1F0D, 0x399]), (0x1F8E, [0x1F0E, 0x399]), (0x1F8F, [0x1F0F, 0x399]),
   (0x1F90, [0x1F28, 0x399]), (0x1F91, [0x1F29, 0x399]), (0x1F92, [0x1F2A, 0x399]), (0x1F93, [0x1F2B, 0x399]),
   (0x1F94, [0x1F2C, 0x399]), (0x1F95, [0x1F2D, 0x399]), (0x1F96, [0x1F2E, 0x399]), (0x1F97, [0x1F2F, 0x399]),
   (0x1F98, [0x1F28, 0x399]), (0x1F99, [0x1F29, 0x399]), (0x1F9A, [0x1F2A, 0x399]), (0x1F9B, [0x1F2B, 0x399]),
   (0x1F9C, [0x1F2C, 0x399]), (0x1F9D, [0x1F2D, 0x399]), (0x1F9E, [0x1F2E, 0x399]), (0x1F9F, [0x1F2F, 0x399]),
   (0x1FA0, [0x1F68, 0x399]), (0x1FA1, [0x1F69, 0x399]), (0x1FA2, [0x1F6A, 0x399]), (0x1FA3, [0x1F6B, 0x399]),
   (0x1FA4, [0x1F6C, 0x399]), (0x1FA5, [0x1F6D, 0x399]), (0x1FA6, [0x1F6E, 0x399]), (0x1FA7, [0x1F6F, 0x399]),
   (0x1FA8, [0x1F68, 0x399]), (0x1FA9, [0x1F69, 0x399]), (0x1FAA, [0x1F6A, 0x399]), (0x1FAB, [0x1F6B, 0x399]),
   (0x1FAC, [0x1F6C, 0x399]), (0x1FAD, [0x1F6D, 0x399]), (0x1FAE, [0x1F6E, 0x399]), (0x1FAF, [0x1F6F, 0x399]),
   (0x1FB0, [0x1FB8]), (0x1FB1, [0x1FB9]), (0x1FB2, [0x1FBA, 0x399]), (0x1FB3, [0x391, 0x399]),
   (0x1FB4, [0x386, 0x399]), (0x1FB6, [0x391, 0x342]), (0x1FB7, [0x391, 0x342, 0x399]), (0x1FBC, [0x391, 0x399]),
   (0x1FBE, [0x399]), (0x1FC2, [0x1FCA, 0x399]), (0x1FC3, [0x397, 0x399]), (0x1FC4, [0x389, 0x399]),
   (0x1FC6, [0x397, 0x342]), (0x1FC7, [0x397, 0x342, 0x399]), (0x1FCC, [0x397, 0x399]), (0x1FD0, [0x1FD8]),
   (0x1FD1, [0x1FD9]), (0x1FD2, [0x399, 0x308, 0x300]), (0x1FD3, [0x399, 0x308, 0x301]), (0x1FD6, [0x399, 0x342]),
   (0x1FD7, [0x399, 0x308, 0x342]), (0x1FE0, [0x1FE8]), (0x1FE1, [0x1FE9]), (0x1FE2, [0x3A5, 0x308, 0x300]),
   (0x1FE3, [0x3A5, 0x308, 0x301]), (0x1FE4, [0x3A1, 0x313]), (0x1FE5, [0x1FEC]), (0x1FE6, [0x3A5, 0x342]),
   (0x1FE7, [0x3A5, 0x308, 0x342]), (0x1FF2, [0x1FFA, 0x399]), (0x1FF3, [0x3A9, 0x399]), (0x1FF4, [0x38F, 0x399]),
   (0x1FF6, [0x3A9, 0x342]), (0x1FF7, [0x3A9, 0x342, 0x399]), (0x1FFC, [0x3A9, 0x399]), (0x214E, [0x2132]),
   (0x2170, [0x2160]), (0x2171, [0x2161]), (0x2172, [0x2162]), (0x2173, [0x2163]),
   (0x2174, [0x2164]), (0x2175, [0x2165]), (0x2176, [0x2166]), (0x2177, [0x2167]),
   (0x2178, [0x2168]), (0x2179, [0x2169]), (0x217A, [0x216A]), (0x217B, [0x216B]),
   (0x217C, [0x216C]), (0x217D, [0x216D]), (0x217E, [0x216E]), (0x217F, [0x216F]),
   (0x2184, [0x2183]), (0x24D0, [0x24B6]), (0x24D1, [0x24B7]), (0x24D2, [0x24B8]),
   (0x24D3, [0x24B9]), (0x24D4, [0x24BA]), (0x24D5, [0x24BB]), (0x24D6, [0x24BC]),
   (0x24D7, [0x24BD]), (0x24D8, [0x24BE]), (0x24D9, [0x24BF]), (0x24DA, [0x24C0]),
   (0x24DB, [0x24C1]), (0x24DC, [0x24C2]), (0x24DD, [0x24C3]), (0x24DE, [0x24C4]),
   (0x24DF, [0x24C5]), (0x24E0, [0x24C6]), (0x24E1, [0x24C7]), (0x24E2, [0x24C8]),
   (0x24E3, [0x24C9]), (0x24E4, [0x24CA]), (0x24E5, [0x24CB]), (0x24E6, [0x24CC]),
   (0x24E7, [0x24CD]), (0x24E8, [0x24CE]), (0x24E9, [0x24CF]), (0x2C30, [0x2C00]),
   (0x2C31, [0x2C01]), (0x2C32, [0x2C02]), (0x2C33, [0x2C03]), (0x2C34, [0x2C04]),
   (0x2C35, [0x2C05]), (0x2C36, [0x2C06]), (0x2C37, [0x2C07]), (0x2C38, [0x2C08]),
   (0x2C39, [0x2C09]), (0x2C3A, [0x2C0A]), (0x2C3B, [0x2C0B]), (0x2C3C, [0x2C0C]),
   (0x2C3D, [0x2C0D]), (0x2C3E, [0x2C0E]), (0x2C3F, [0x2C0F]), (0x2C40, [0x2C10]),
   (0x2C41, [0x2C11]), (0x2C42, [0x2C12]), (0x2C43, [0x2C13]), (0x2C44, [0x2C14]),
   (0x2C45, [0x2C15]), (0x2C46, [0x2C16]), (0x2C47, [0x2C17]), (0x2C48, [0x2C18]),
   (0x2C49, [0x2C19]), (0x2C4A, [0x2C1A]), (0x2C4B, [0x2C1B]), (0x2C4C, [0x2C1C]),
   (0x2C4D, [0x2C1D]), (0x2C4E, [0x2C1E]), (0x2C4F, [0x2C1F]), (0x2C50, [0x2C20]),
   (0x2C51, [0x2C21]), (0x2C52, [0x2C22]), (0x2C53, [0x2C23]), (0x2C54, [0x2C24]),
   (0x2C55, [0x2C25]), (0x2C56, [0x2C26]), (0x2C57, [0x2C27]), (0x2C58, [0x2C28]),
   (0x2C59, [0x2C29]), (0x2C5A, [0x2C2A]), (0x2C5B, [0x2C2B]), (0x2C5C, [0x2C2C]),
   (0x2C5D, [0x2C2D]), (0x2C5E, [0x2C2E]), (0x2C5F, [0x2C2F]), (0x2C61, [0x2C60]),
   (0x2C65, [0x23A]), (0x2C66, [0x23E]), (0x2C68, [0x2C67]), (0x2C6A, [0x2C69]),
   (0x2C6C, [0x2C6B]), (0x2C73, [0x2C72]), (0x2C76, [0x2C75]), (0x2C81, [0x2C80]),
   (0x2C83, [0x2C82]), (0x2C85, [0x2C84]), (0x2C87, [0x2C86]), (0x2C89, [0x2C88]),
   (0x2C8B, [0x2C8A]), (0x2C8D, [0x2C8C]), (0x2C8F, [0x2C8E]), (0x2C91, [0x2C90]),
   (0x2C93, [0x2C92]), (0x2C95, [0x2C94]), (0x2C97, [0x2C96]), (0x2C99, [0x2C98]),
   (0x2C9B, [0x2C9A]), (0x2C9D, [0x2C9C]), (0x2C9F, [0x2C9E]), (0x2CA1, [0x2CA0]),
   (0x2CA3, [0x2CA2]), (0x2CA5, [0x2CA4]), (0x2CA7, [0x2CA6]), (0x2CA9, [0x2CA8]),
   (0x2CAB, [0x2CAA]), (0x2CAD, [0x2CAC]), (0x2CAF, [0x2CAE]), (0x2CB1, [0x2CB0]),
   (0x2CB3, [0x2CB2]), (0x2CB5, [0x2CB4]), (0x2CB7, [0x2CB6]), (0x2CB9, [0x2CB8]),
   (0x2CBB, [0x2CBA]), (0x2CBD, [0x2CBC]), (0x2CBF, [0x2CBE]), (0x2CC1, [0x2CC0]),
   (0x2CC3, [0x2CC2]), (0x2CC5, [0x2CC4]), (0x2CC7, [0x2CC6]), (0x2CC9, [0x2CC8]),
   (0x2CCB, [0x2CCA]), (0x2CCD, [0x2CCC]), (0x2CCF, [0x2CCE]), (0x2CD1, [0x2CD0]),
   (0x2CD3, [0x2CD2]), (0x2CD5, [0x2CD4]), (0x2CD7, [0x2CD6]), (0x2CD9, [0x2CD8]),
   (0x2CDB, [0x2CDA]), (0x2CDD, [0x2CDC]), (0x2CDF, [0x2CDE]), (0x2CE1, [0x2CE0]),
   (0x2CE3, [0x2CE2]), (0x2CEC, [0x2CEB]), (0x2CEE, [0x2CED]), (0x2CF3, [0x2CF2]),
   (0x2D00, [0x10A0]), (0x2D01, [0x10A1]), (0x2D02, [0x10A2]), (0x2D03, [0x10A3]),
   (0x2D04, [0x10A4]), (0x2D05, [0x10A5]), (0x2D06, [0x10A6]), (0x2D07, [0x10A7]),
   (0x2D08, [0x10A8]), (0x2D09, [0x10A9]), (0x2D0A, [0x10AA]), (0x2D0B, [0x10AB]),
   (0x2D0C, [0x10AC]), (0x2D0D, [0x10AD]), (0x2D0E, [0x10AE]), (0x2D0F, [0x10AF]),
   (0x2D10, [0x10B0]), (0x2D11, [0x10B1]), (0x2D12, [0x10B2]), (0x2D13, [0x10B3]),
   (0x2D14, [0x10B4]), (0x2D15, [0x10B5]), (0x2D16, [0x10B6]), (0x2D17, [0x10B7]),
   (0x2D18, [0x10B8]), (0x2D19, [0x10B9]), (0x2D1A, [0x10BA]), (0x2D1B, [0x10BB]),
   (0x2D1C, [0x10BC]), (0x2D1D, [0x10BD]), (0x2D1E, [0x10BE]), (0x2D1F, [0x10BF]),
   (0x2D20, [0x10C0]), (0x2D21, [0x10C1]), (0x2D22, [0x10C2]), (0x2D23, [0x10C3]),
   (0x2D24, [0x10C4]), (0x2D25, [0x10C5]), (0x2D27, [0x10C7]), (0x2D2D, [0x10CD]),
   (0xA641, [0xA640]), (0xA643, [0xA642]), (0xA645, [0xA644]), (0xA647, [0xA646]),
   (0xA649, [0xA648]), (0xA64B, [0xA64A]), (0xA64D, [0xA64C]), (0xA64F, [0xA64E]),
   (0xA651, [0xA650]), (0xA653, [0xA652]), (0xA655, [0xA654]), (0xA657, [0xA656]),
   (0xA659, [0xA658]), (0xA65B, [0xA65A]), (0xA65D, [0xA65C]), (0xA65F, [0xA65E]),
   (0xA661, [0xA660]), (0xA663, [0xA662]), (0xA665, [0xA664]), (0xA667, [0xA666]),
   (0xA669, [0xA668]), (0xA66B, [0xA66A]), (0xA66D, [0xA66C]), (0xA681, [0xA680]),
   (0xA683, [0xA682]), (0xA685, [0xA684]), (0xA687, [0xA686]), (0xA689, [0xA688]),
   (0xA68B, [0xA68A]), (0xA68D, [0xA68C]), (0xA68F, [0xA68E]), (0xA691, [0xA690]),
   (0xA693, [0xA692]), (0xA695, [0xA694]), (0xA697, [0xA696]), (0xA699, [0xA698]),
   (0xA69B, [0xA69A]), (0xA723, [0xA722]), (0xA725, [0xA724]), (0xA727, [0xA726]),
   (0xA729, [0xA728]), (0xA72B, [0xA72A]), (0xA72D, [0xA72C]), (0xA72F, [0xA72E]),
   (0xA733, [0xA732]), (0xA735, [0xA734]), (0xA737, [0xA736]), (0xA739, [0xA738]),
   (0xA73B, [0xA73A]), (0xA73D, [0xA73C]), (0xA73F, [0xA73E]), (0xA741, [0xA740]),
   (0xA743, [0xA742]), (0xA745, [0xA744]), (0xA747, [0xA746]), (0xA749, [0xA748]),
   (0xA74B, [0xA74A]), (0xA74D, [0xA74C]), (0xA74F, [0xA74E]), (0xA751, [0xA750]),
   (0xA753, [0xA752]), (0xA755, [0xA754]), (0xA757, [0xA756]), (0xA759, [0xA758]),
   (0xA75B, [0xA75A]), (0xA75D, [0xA75C]), (0xA75F, [0xA75E]), (0xA761, [0xA760]),
   (0xA763, [0xA762]), (0xA765, [0xA764]), (0xA767, [0xA766]), (0xA769, [0xA768]),
   (0xA76B, [0xA76A]), (0xA76D, [0xA76C]), (0xA76F, [0xA76E]), (0xA77A, [0xA779]),
   (0xA77C, [0xA77B]), (0xA77F, [0xA77E]), (0xA781, [0xA780]), (0xA783, [0xA782]),
   (0xA785, [0xA784]), (0xA787, [0xA786]), (0xA78C, [0xA78B]), (0xA791, [0xA790]),
   (0xA793, [0xA792]), (0xA794, [0xA7C4]), (0xA797, [0xA796]), (0xA799, [0xA798]),
   (0xA79B, [0xA79A]), (0xA79D, [0xA79C]), (0xA79F, [0xA79E]), (0xA7A1, [0xA7A0]),
   (0xA7A3, [0xA7A2]), (0xA7A5, [0xA7A4]), (0xA7A7, [0xA7A6]), (0xA7A9, [0xA7A8]),
   (0xA7B5, [0xA7B4]), (0xA7B7, [0xA7B6]), (0xA7B9, [0xA7B8]), (0xA7BB, [0xA7BA]),
   (0xA7BD, [0xA7BC]), (0xA7BF, [0xA7BE]), (0xA7C1, [0xA7C0]), (0xA7C3, [0xA7C2]),
   (0xA7C8, [0xA7C7]), (0xA7CA, [0xA7C9]), (0xA7D1, [0xA7D0]), (0xA7D7, [0xA7D6]),
   (0xA7D9, [0xA7D8]), (0xA7F6, [0xA7F5]), (0xAB53, [0xA7B3]), (0xAB70, [0x13A0]),
   (0xAB71, [0x13A1]), (0xAB72, [0x13A2]), (0xAB73, [0x13A3]), (0xAB74, [0x13A4]),
   (0xAB75, [0x13A5]), (0xAB76, [0x13A6]), (0xAB77, [0x13A7]), (0xAB78, [0x13A8]),
   (0xAB79, [0x13A9]), (0xAB7A, [0x13AA]), (0xAB7B, [0x13AB]), (0xAB7C, [0x13AC]),
   (0xAB7D, [0x13AD]), (0xAB7E, [0x13AE]), (0xAB7F, [0x13AF]), (0xAB80, [0x13B0]),
   (0xAB81, [0x13B1]), (0xAB82, [0x13B2]), (0xAB83, [0x13B3]), (0xAB84, [0x13B4]),
   (0xAB85, [0x13B5]), (0xAB86, [0x13B6]), (0xAB87, [0x13B7]), (0xAB88, [0x13B8]),
   (0xAB89, [0x13B9]), (0xAB8A, [0x13BA]), (0xAB8B, [0x13BB]), (0xAB8C, [0x13BC]),
   (0xAB8D, [0x13BD]), (0xAB8E, [0x13BE]), (0xAB8F, [0x13BF]), (0xAB90, [0x13C0]),
   (0xAB91, [0x13C1]), (0xAB92, [0x13C2]), (0xAB93, [0x13C3]), (0xAB94, [0x13C4]),
   (0xAB95, [0x13C5]), (0xAB96, [0x13C6]), (0xAB97, [0x13C7]), (0xAB98, [0x13C8]),
   (0xAB99, [0x13C9]), (0xAB9A, [0x13CA]), (0xAB9B, [0x13CB]), (0xAB9C, [0x13CC]),
   (0xAB9D, [0x13CD]), (0xAB9E, [0x13CE]), (0xAB9F, [0x13CF]), (0xABA0, [0x13D0]),
   (0xABA1, [0x13D1]), (0xABA2, [0x13D2]), (0xABA3, [0x13D3]), (0xABA4, [0x13D4]),
   (0xABA5, [0x13D5]), (0xABA6, [0x13D6]), (0xABA7, [0x13D7]), (0xABA8, [0x13D8]),
   (0xABA9, [0x13D9]), (0xABAA, [0x13DA]), (0xABAB, [0x13DB]), (0xABAC, [0x13DC]),
   (0xABAD, [0x13DD]), (0xABAE, [0x13DE]), (0xABAF, [0x13DF]), (0xABB0, [0x13E0]),
   (0xABB1, [0x13E1]), (0xABB2, [0x13E2]), (0xABB3, [0x13E3]), (0xABB4, [0x13E4]),
   (0xABB5, [0x13E5]), (0xABB6, [0x13E6]), (0xABB7, [0x13E7]), (0xABB8, [0x13E8]),
   (0xABB9, [0x13E9]), (0xABBA, [0x13EA]), (0xABBB, [0x13EB]), (0xABBC, [0x13EC]),
   (0xABBD, [0x13ED]), (0xABBE, [0x13EE]), (0xABBF, [0x13EF]), (0xFB00, [0x46, 0x46]),
   (0xFB01, [0x46, 0x49]), (0xFB02, [0x46, 0x4C]), (0xFB03, [0x46, 0x46, 0x49]), (0xFB04, [0x46, 0x46, 0x4C]),
   (0xFB05, [0x53, 0x54]), (0xFB06, [0x53, 0x54]), (0xFB13, [0x544, 0x546]), (0xFB14, [0x544, 0x535]),
   (0xFB15, [0x544, 0x53B]), (0xFB16, [0x54E, 0x546]), (0xFB17, [0x544, 0x53D]), (0xFF41, [0xFF21]),
   (0xFF42, [0xFF22]), (0xFF43, [0xFF23]), (0xFF44, [0xFF24]), (0xFF45, [0xFF25]),
   (0xFF46, [0xFF26]), (0xFF47, [0xFF27]), (0xFF48, [0xFF28]), (0xFF49, [0xFF29]),
   (0xFF4A, [0xFF2A]), (0xFF4B, [0xFF2B]), (0xFF4C, [0xFF2C]), (0xFF4D, [0xFF2D]),
   (0xFF4E, [0xFF2E]), (0xFF4F, [0xFF2F]), (0xFF50, [0xFF30]), (0xFF51, [0xFF31]),
   (0xFF52, [0xFF32]), (0xFF53, [0xFF33]), (0xFF54, [0xFF34]), (0xFF55, [0xFF35]),
   (0xFF56, [0xFF36]), (0xFF57, [0xFF37]), (0xFF58, [0xFF38]), (0xFF59, [0xFF39]),
   (0xFF5A, [0xFF3A]), (0x10428, [0x10400]), (0x10429, [0x10401]), (0x1042A, [0x10402]),
   (0x1042B, [0x10403]), (0x1042C, [0x10404]), (0x1042D, [0x10405]), (0x1042E, [0x10406]),
   (0x1042F, [0x10407]), (0x10430, [0x10408]), (0x10431, [0x10409]), (0x10432, [0x1040A]),
   (0x10433, [0x1040B]), (0x10434, [0x1040C]), (0x10435, [0x1040D]), (0x10436, [0x1040E]),
   (0x10437, [0x1040F]), (0x10438, [0x10410]), (0x10439, [0x10411]), (0x1043A, [0x10412]),
   (0x1043B, [0x10413]), (0x1043C, [0x10414]), (0x1043D, [0x10415]), (0x1043E, [0x10416]),
   (0x1043F, [0x10417]), (0x10440, [0x10418]), (0x10441, [0x10419]), (0x10442, [0x1041A]),
   (0x10443, [0x1041B]), (0x10444, [0x1041C]), (0x10445, [0x1041D]), (0x10446, [0x1041E]),
   (0x10447, [0x1041F]), (0x10448, [0x10420]), (0x10449, [0x10421]), (0x1044A, [0x10422]),
   (0x1044B, [0x10423]), (0x1044C, [0x10424]), (0x1044D, [0x10425]), (0x1044E, [0x10426]),
   (0x1044F, [0x10427]), (0x104D8, [0x104B0]), (0x104D9, [0x104B1]), (0x104DA, [0x104B2]),
   (0x104DB, [0x104B3]), (0x104DC, [0x104B4]), (0x104DD, [0x104B5]), (0x104DE, [0x104B6]),
   (0x104DF, [0x104B7]), (0x104E0, [0x104B8]), (0x104E1, [0x104B9]), (0x104E2, [0x104BA]),
   (0x104E3, [0x104BB]), (0x104E4, [0x104BC]), (0x104E5, [0x104BD]), (0x104E6, [0x104BE]),
   (0x104E7, [0x104BF]), (0x104E8, [0x104C0]), (0x104E9, [0x104C1]), (0x104EA, [0x104C2]),
   (0x104EB, [0x104C3]), (0x104EC, [0x104C4]), (0x104ED, [0x104C5]), (0x104EE, [0x104C6]),
   (0x104EF, [0x104C7]), (0x104F0, [0x104C8]), (0x104F1, [0x104C9]), (0x104F2, [0x104CA]),
   (0x104F3, [0x104CB]), (0x104F4, [0x104CC]), (0x104F5, [0x104CD]), (0x104F6, [0x104CE]),
   (0x104F7, [0x104CF]), (0x104F8, [0x104D0]), (0x104F9, [0x104D1]), (0x104FA, [0x104D2]),
   (0x104FB, [0x104D3]), (0x10597, [0x10570]), (0x10598, [0x10571]), (0x10599, [0x10572]),
   (0x1059A, [0x10573]), (0x1059B, [0x10574]), (0x1059C, [0x10575]), (0x1059D, [0x10576]),
   (0x1059E, [0x10577]), (0x1059F, [0x10578]), (0x105A0, [0x10579]), (0x105A1, [0x1057A]),
   (0x105A3, [0x1057C]), (0x105A4, [0x1057D]), (0x105A5, [0x1057E]), (0x105A6, [0x1057F]),
   (0x105A7, [0x10580]), (0x105A8, [0x10581]), (0x105A9, [0x10582]), (0x105AA, [0x10583]),
   (0x105AB, [0x10584]), (0x105AC, [0x10585]), (0x105AD, [0x10586]), (0x105AE, [0x10587]),
   (0x105AF, [0x10588]), (0x105B0, [0x10589]), (0x105B1, [0x1058A]), (0x105B3, [0x1058C]),
   (0x105B4, [0x1058D]), (0x105B5, [0x1058E]), (0x105B6, [0x1058F]), (0x105B7, [0x10590]),
   (0x105B8, [0x10591]), (0x105B9, [0x10592]), (0x105BB, [0x10594]), (0x105BC, [0x10595]),
   (0x10CC0, [0x10C80]), (0x10CC1, [0x10C81]), (0x10CC2, [0x10C82]), (0x10CC3, [0x10C83]),
   (0x10CC4, [0x10C84]), (0x10CC5, [0x10C85]), (0x10CC6, [0x10C86]), (0x10CC7, [0x10C87]),
   (0x10CC8, [0x10C88]), (0x10CC9, [0x10C89]), (0x10CCA, [0x10C8A]), (0x10CCB, [0x10C8B]),
   (0x10CCC, [0x10C8C]), (0x10CCD, [0x10C8D]), (0x10CCE, [0x10C8E]), (0x10CCF, [0x10C8F]),
   (0x10CD0, [0x10C90]), (0x10CD1, [0x10C91]), (0x10CD2, [0x10C92]), (0x10CD3, [0x10C93]),
   (0x10CD4, [0x10C94]), (0x10CD5, [0x10C95]), (0x10CD6, [0x10C96]), (0x10CD7, [0x10C97]),
   (0x10CD8, [0x10C98]), (0x10CD9, [0x10C99]), (0x10CDA, [0x10C9A]), (0x10CDB, [0x10C9B]),
   (0x10CDC, [0x10C9C]), (0x10CDD, [0x10C9D]), (0x10CDE, [0x10C9E]), (0x10CDF, [0x10C9F]),
   (0x10CE0, [0x10CA0]), (0x10CE1, [0x10CA1]), (0x10CE2, [0x10CA2]), (0x10CE3, [0x10CA3]),
   (0x10CE4, [0x10CA4]), (0x10CE5, [0x10CA5]), (0x10CE6, [0x10CA6]), (0x10CE7, [0x10CA7]),
   (0x10CE8, [0x10CA8]), (0x10CE9, [0x10CA9]), (0x10CEA, [0x10CAA]), (0x10CEB, [0x10CAB]),
   (0x10CEC, [0x10CAC]), (0x10CED, [0x10CAD]), (0x10CEE, [0x10CAE]), (0x10CEF, [0x10CAF]),
   (0x10CF0, [0x10CB0]), (0x10CF1, [0x10CB1]), (0x10CF2, [0x10CB2]), (0x118C0, [0x118A0]),
   (0x118C1, [0x118A1]), (0x118C2, [0x118A2]), (0x118C3, [0x118A3]), (0x118C4, [0x118A4]),
   (0x118C5, [0x118A5]), (0x118C6, [0x118A6]), (0x118C7, [0x118A7]), (0x118C8, [0x118A8]),
   (0x118C9, [0x118A9]), (0x118CA, [0x118AA]), (0x118CB, [0x118AB]), (0x118CC, [0x118AC]),
   (0x118CD, [0x118AD]), (0x118CE, [0x118AE]), (0x118CF, [0x118AF]), (0x118D0, [0x118B0]),
   (0x118D1, [0x118B1]), (0x118D2, [0x118B2]), (0x118D3, [0x118B3]), (0x118D4, [0x118B4]),
   (0x118D5, [0x118B5]), (0x118D6, [0x118B6]), (0x118D7, [0x118B7]), (0x118D8, [0x118B8]),
   (0x118D9, [0x118B9]), (0x118DA, [0x118BA]), (0x118DB, [0x118BB]), (0x118DC, [0x118BC]),
   (0x118DD, [0x118BD]), (0x118DE, [0x118BE]), (0x118DF, [0x118BF]), (0x16E60, [0x16E40]),
   (0x16E61, [0x16E41]), (0x16E62, [0x16E42]), (0x16E63, [0x16E43]), (0x16E64, [0x16E44]),
   (0x16E65, [0x16E45]), (0x16E66, [0x16E46]), (0x16E67, [0x16E47]), (0x16E68, [0x16E48]),
   (0x16E69, [0x16E49]), (0x16E6A, [0x16E4A]), (0x16E6B, [0x16E4B]), (0x16E6C, [0x16E4C]),
   (0x16E6D, [0x16E4D]), (0x16E6E, [0x16E4E]), (0x16E6F, [0x16E4F]), (0x16E70, [0x16E50]),
   (0x16E71, [0x16E51]), (0x16E72, [0x16E52]), (0x16E73, [0x16E53]), (0x16E74, [0x16E54]),
   (0x16E75, [0x16E55]), (0x16E76, [0x16E56]), (0x16E77, [0x16E57]), (0x16E78, [0x16E58]),
   (0x16E79, [0x16E59]), (0x16E7A, [0x16E5A]), (0x16E7B, [0x16E5B]), (0x16E7C, [0x16E5C]),
   (0x16E7D, [0x16E5D]), (0x16E7E, [0x16E5E]), (0x16E7F, [0x16E5F]), (0x1E922, [0x1E900]),
   (0x1E923, [0x1E901]), (0x1E924, [0x1E902]), (0x1E925, [0x1E903]), (0x1E926, [0x1E904]),
   (0x1E927, [0x1E905]), (0x1E928, [0x1E906]), (0x1E929, [0x1E907]), (0x1E92A, [0x1E908]),
   (0x1E92B, [0x1E909]), (0x1E92C, [0x1E90A]), (0x1E92D, [0x1E90B]), (0x1E92E, [0x1E90C]),
   (0x1E92F, [0x1E90D]), (0x1E930, [0x1E90E]), (0x1E931, [0x1E90F]), (0x1E932, [0x1E910]),
   (0x1E933, [0x1E911]), (0x1E934, [0x1E912]), (0x1E935, [0x1E913]), (0x1E936, [0x1E914]),
   (0x1E937, [0x1E915]), (0x1E938, [0x1E916]), (0x1E939, [0x1E917]), (0x1E93A, [0x1E918]),
   (0x1E93B, [0x1E919]), (0x1E93C, [0x1E91A]), (0x1E93D, [0x1E91B]), (0x1E93E, [0x1E91C]),
   (0x1E93F, [0x1E91D]), (0x1E940, [0x1E91E]), (0x1E941, [0x1E91F]), (0x1E942, [0x1E920]),
   (0x1E943, [0x1E921])]

/-- One character's contribution to Python `str.upper()`: its full
uppercase expansion, or itself when the mapping leaves it unchanged. -/
def pyUpperChar (c : Char) : List Char :=
  match upperMapping.lookup c.toNat with
  | some us => us.map Char.ofNat
  | none => [c]

/-- Python `str.upper()` on a whole string (`code.upper()` at source line
219): the concatenation of every character's full uppercase expansion;
the result can be longer than the input. -/
def pyUpperStr (l : List Char) : List Char := l.flatMap pyUpperChar

/-- `is_credit_code` (source lines 35-44): structural check, then parity
computation, then case-insensitive comparison of the 18th character
(`credit_code[17].upper() == BASE_CODE[parity_bit]`).  Indexing is total
here via `getD`; both indices are in range whenever the guarded branches
are reached (length is 18 and `0 ≤ parity_bit ≤ 30`). -/
def is_credit_code (s : List Char) : Bool :=
  if is_credit_code_simple s = false then false
  else
    let p := get_parity_bit s
    if p < 0 then false
    else decide (pyUpper (s.getD 17 ' ') = BASE_CODE.getD p.toNat ' ')

/-- Spec-side: an ASCII digit `0`-`9`. -/
def isAsciiDigit (c : Char) : Bool := 48 ≤ c.toNat && c.toNat ≤ 57

/-- Spec-side (wording of the claims): positions 0-1 and 8-17 lie in the
restricted class and positions 2-7 are ASCII digits. -/
def structuralOK (s : List Char) : Prop :=
  (∀ i, i < 2 → isBaseClassChar (s.getD i ' ') = true) ∧
  (∀ i, 2 ≤ i → i < 8 → isAsciiDigit (s.getD i ' ') = true) ∧
  (∀ i, 8 ≤ i → i < 18 → isBaseClassChar (s.getD i ' ') = true)

/-- Spec-side: a character's alphabet value (its position in the
31-symbol alphabet). -/
def specCharVal (c : Char) : Nat := (CODE_INDEX_MAP c).getD 0

/-- Spec-side: the weighted sum over positions 0..16 of alphabet value
times weight. -/
def specWeightedSum (s : List Char) : Nat :=
  ((List.range 17).map fun i => specCharVal (s.getD i ' ') * WEIGHT.getD i 0).sum

/-- Spec-side: the check-digit index formula, `31 - (sum mod 31)` with the
value 31 folded to 0. -/
def specParity (t : Nat) : Nat := if 31 - t % 31 = 31 then 0 else 31 - t % 31

/-- The branch taken by `CreditCodeValidatorApp.get_error_reason` (source
lines 211-232), with the data embedded in each message: the length
message, the list of distinct offending characters, the generic format
message, the expected check character, and the residual unknown message. -/
inductive ErrorReason where
  | badLength
  | badChars (cs : List Char)
  | badFormat
  | badChecksum (expected : Char)
  | unknown
deriving DecidableEq

/-- `get_error_reason` (source lines 211-232): length check, then pattern
check with collection of the characters of `code.upper()` absent from the
alphabet (the loop `for char in code.upper()` iterates the fully uppercased
string, modelled by `pyUpperStr`; `set(invalid_chars)` is modelled as
`dedup`, the claims only using its membership, which is
order-independent), then the checksum branch. -/
def get_error_reason (code : List Char) : ErrorReason :=
  if code.isEmpty || code.length != 18 then .badLength
  else if is_credit_code_simple code = false then
    let invalid_chars := (pyUpperStr code).filter fun ch => !BASE_CODE.contains ch
    if !invalid_chars.isEmpty then .badChars invalid_chars.dedup else .badFormat
  else if 0 ≤ get_parity_bit code then
    .badChecksum (BASE_CODE.getD (get_parity_bit code).toNat ' ')
  else .unknown

/-- Python's whitespace set for `str`: the characters matched by `\s` in a
`str` pattern and stripped by `str.strip()`. -/
def isPySpace (c : Char) : Bool :=
  (9 ≤ c.toNat && c.toNat ≤ 13) || (28 ≤ c.toNat && c.toNat ≤ 32) ||
  c.toNat = 0x85 || c.toNat = 0xA0 || c.toNat = 0x1680 ||
  (0x2000 ≤ c.toNat && c.toNat ≤ 0x200A) || c.toNat = 0x2028 || c.toNat = 0x2029 ||
  c.toNat = 0x202F || c.toNat = 0x205F || c.toNat = 0x3000

/-- The delimiter class `[,，\s]` that the splitting regex `re.split`
applies (source line 51): ASCII comma, full-width comma, whitespace. -/
def isDelimChar (c : Char) : Bool := c = ',' || c = '，' || isPySpace c

/-- The line boundaries recognised by Python `str.splitlines` (source line
50): `\n`, `\v`, `\f`, `\r`, FS, GS, RS, NEL, LS, PS; `\r\n` is consumed
as one boundary by `splitlinesAux` below. -/
def isLineBoundary (c : Char) : Bool :=
  c.toNat = 10 || c.toNat = 11 || c.toNat = 12 || c.toNat = 13 ||
  c.toNat = 28 || c.toNat = 29 || c.toNat = 30 ||
  c.toNat = 0x85 || c.toNat = 0x2028 || c.toNat = 0x2029

/-- Python `str.splitlines` as a forward scan: `acc` holds the reversed
current line and a boundary emits it; after a `\r` the flag `skipLF` makes
an immediately following `\n` part of the same boundary; the final
segment is emitted only when nonempty, so a trailing boundary adds no
empty line and `splitlines("") = []`. -/
def splitlinesAux (skipLF : Bool) (acc : List Char) : List Char → List (List Char)
  | [] => if acc.isEmpty then [] else [acc.reverse]
  | c :: rest =>
    if skipLF ∧ c = '\n' then splitlinesAux false acc rest
    else if isLineBoundary c then
      acc.reverse :: splitlinesAux (c = '\r') [] rest
    else splitlinesAux false (c :: acc) rest

/-- `text.splitlines()` (source line 50). -/
def pySplitlines (l : List Char) : List (List Char) := splitlinesAux false [] l

/-- `re.split` with the pattern `[,，\s]+` (source line 51) as a forward
scan: `acc` holds the reversed current fragment; the first character of a
delimiter run emits the fragment, further characters of the same run
(`inRun = true`) are skipped, and the final fragment is always emitted, so
a leading or trailing run contributes an empty fragment exactly as
`re.split` produces it. -/
def reSplitAux (inRun : Bool) (acc : List Char) : List Char → List (List Char)
  | [] => [acc.reverse]
  | c :: rest =>
    if isDelimChar c then
      if inRun then reSplitAux true acc rest
      else acc.reverse :: reSplitAux true [] rest
    else reSplitAux false (c :: acc) rest

/-- `re.split(r'[,，\s]+', line)` (source line 51). -/
def reSplitDelim (l : List Char) : List (List Char) := reSplitAux false [] l

/-- Python `str.strip()` (source line 51): drop whitespace from both
ends. -/
def pyStrip (l : List Char) : List Char :=
  ((l.dropWhile isPySpace).reverse.dropWhile isPySpace).reverse

/-- The tokenizer of `validate_credit_codes` (source lines 49-52): for
each line, split on delimiter runs, strip each fragment and keep the
nonempty ones, concatenating the per-line results in input order. -/
def tokenize (text : List Char) : List (List Char) :=
  (pySplitlines text).flatMap fun line =>
    ((reSplitDelim line).map pyStrip).filter fun t => !t.isEmpty

/-- The result dictionary of `validate_credit_codes` (source lines 54-72):
the empty-input dictionary has no `total` key (modelled as `none`) and
carries the error message; the normal dictionary has a count, the two
partitions and `error = None`. -/
structure BatchResult where
  total : Option Nat
  valid : List (List Char)
  invalid : List (List Char)
  error : Option String
deriving DecidableEq

/-- `validate_credit_codes` (source lines 46-72): tokenize, return the
batch-level error when no token was found, otherwise route every token
through `is_credit_code` into the valid or invalid sequence in input
order (the source's append loop is exactly `List.partition`). -/
def validate_credit_codes (text : List Char) : BatchResult :=
  let codes := tokenize text
  if codes.isEmpty then
    { total := none, valid := [], invalid := [],
      error := some "没有找到有效的信用代码" }
  else
    let parts := codes.partition is_credit_code
    { total := some codes.length, valid := parts.1, invalid := parts.2, error := none }

theorem cim_none {c : Char} (h : c ∉ BASE_CODE) : CODE_INDEX_MAP c = none := by
  simp only [BASE_CODE, List.mem_cons, List.not_mem_nil, or_false, not_or] at h
  obtain ⟨h0, h1, h2, h3, h4, h5, h6, h7, h8, h9, h10, h11, h12, h13, h14, h15,
    h16, h17, h18, h19, h20, h21, h22, h23, h24, h25, h26, h27, h28, h29, h30⟩ := h
  simp only [CODE_INDEX_MAP, if_neg h0, if_neg h1, if_neg h2, if_neg h3, if_neg h4,
    if_neg h5, if_neg h6, if_neg h7, if_neg h8, if_neg h9, if_neg h10, if_neg h11,
    if_neg h12, if_neg h13, if_neg h14, if_neg h15, if_neg h16, if_neg h17, if_neg h18,
    if_neg h19, if_neg h20, if_neg h21, if_neg h22, if_neg h23, if_neg h24, if_neg h25,
    if_neg h26, if_neg h27, if_neg h28, if_neg h29, if_neg h30]

theorem cim_char {c : Char} {k : Nat} (h : CODE_INDEX_MAP c = some k) :
    k < 31 ∧ BASE_CODE.getD k ' ' = c ∧ c ∈ BASE_CODE := by
  by_cases hm : c ∈ BASE_CODE
  · have hall : ∀ c ∈ BASE_CODE, (CODE_INDEX_MAP c).getD 0 < 31 ∧
        BASE_CODE.getD ((CODE_INDEX_MAP c).getD 0) ' ' = c := by decide
    have hk : (CODE_INDEX_MAP c).getD 0 = k := by rw [h]; rfl
    have h2 := hall c hm
    rw [hk] at h2
    exact ⟨h2.1, h2.2, hm⟩
  · rw [cim_none hm] at h; exact Option.noConfusion h

theorem cim_of_mem {c : Char} (h : c ∈ BASE_CODE) :
    ∃ k, CODE_INDEX_MAP c = some k ∧ k < 31 := by
  have h1 : ∀ c ∈ BASE_CODE, (CODE_INDEX_MAP c).isSome = true := by decide
  have h2 := h1 c h
  cases hx : CODE_INDEX_MAP c with
  | none => rw [hx] at h2; simp at h2
  | some k => exact ⟨k, rfl, (cim_char hx).1⟩

theorem class_mem {c : Char} (h : isBaseClassChar c = true) : c ∈ BASE_CODE := by
  have hb : 48 ≤ c.toNat ∧ c.toNat ≤ 89 := by
    simp [isBaseClassChar] at h; omega
  have hc := Char.ofNat_toNat c
  obtain ⟨h1, h2⟩ := hb
  generalize hg : c.toNat = n at h1 h2 hc
  interval_cases n <;> subst hc <;> first | decide | exact absurd h (by decide)

theorem mem_class {c : Char} (h : c ∈ BASE_CODE) : isBaseClassChar c = true := by
  have h1 : ∀ c ∈ BASE_CODE, isBaseClassChar c = true := by decide
  exact h1 c h

theorem ascii_digit_class {c : Char} (h : isAsciiDigit c = true) :
    isBaseClassChar c = true := by
  simp [isAsciiDigit] at h
  simp [isBaseClassChar]
  omega

theorem ascii_digit_py {c : Char} (h : isAsciiDigit c = true) : pyIsDigit c = true := by
  simp [isAsciiDigit] at h
  simp [pyIsDigit, ndRanges]
  omega

theorem py_digit_mem_ascii {c : Char} (hd : pyIsDigit c = true) (hm : c ∈ BASE_CODE) :
    isAsciiDigit c = true := by
  have h1 : ∀ c ∈ BASE_CODE, pyIsDigit c = true → isAsciiDigit c = true := by decide
  exact h1 c hm hd

theorem pyUpper_class {c : Char} (h : isBaseClassChar c = true) : pyUpper c = c := by
  have hb : c.toNat ≤ 89 := by simp [isBaseClassChar] at h; omega
  unfold pyUpper
  rw [if_neg]
  omega

theorem base_getD_ne : ∀ p < 31, ∀ q < 31, p ≠ q →
    BASE_CODE.getD p ' ' ≠ BASE_CODE.getD q ' ' := by decide

theorem regexMatch_shape {s : List Char} (h : regexMatch s = true) :
    ∃ c0 c1 c2 c3 c4 c5 c6 c7 c8 c9 c10 c11 c12 c13 c14 c15 c16 c17,
      s = [c0, c1, c2, c3, c4, c5, c6, c7, c8, c9, c10, c11, c12, c13, c14, c15, c16, c17] := by
  unfold regexMatch at h
  split at h
  · next a1 a2 d1 d2 d3 d4 d5 d6 b1 b2 b3 b4 b5 b6 b7 b8 b9 b10 =>
      exact ⟨a1, a2, d1, d2, d3, d4, d5, d6, b1, b2, b3, b4, b5, b6, b7, b8, b9, b10, rfl⟩
  · exact Bool.noConfusion h

theorem regexMatch_false_of_len {s : List Char} (h : s.length ≠ 18) :
    regexMatch s = false := by
  cases hr : regexMatch s
  · rfl
  · obtain ⟨c0, c1, c2, c3, c4, c5, c6, c7, c8, c9, c10, c11, c12, c13, c14, c15, c16, c17, rfl⟩ :=
      regexMatch_shape hr
    simp at h

theorem simple_eq_regex (s : List Char) : is_credit_code_simple s = regexMatch s := by
  unfold is_credit_code_simple
  by_cases h : s.isEmpty || s.length != 18
  · rw [if_pos h]
    have hl : s.length ≠ 18 := by
      rcases Bool.or_eq_true _ _ |>.mp h with h1 | h2
      · intro hc; rw [List.isEmpty_iff] at h1; subst h1; simp at hc
      · simpa using h2
    exact (regexMatch_false_of_len hl).symm
  · rw [if_neg h]

theorem weightedTotal_eval {c0 c1 c2 c3 c4 c5 c6 c7 c8 c9 c10 c11 c12 c13 c14 c15 c16 : Char}
    {k0 k1 k2 k3 k4 k5 k6 k7 k8 k9 k10 k11 k12 k13 k14 k15 k16 : Nat} {rest : List Char}
    (h0 : CODE_INDEX_MAP c0 = some k0) (h1 : CODE_INDEX_MAP c1 = some k1)
    (h2 : CODE_INDEX_MAP c2 = some k2) (h3 : CODE_INDEX_MAP c3 = some k3)
    (h4 : CODE_INDEX_MAP c4 = some k4) (h5 : CODE_INDEX_MAP c5 = some k5)
    (h6 : CODE_INDEX_MAP c6 = some k6) (h7 : CODE_INDEX_MAP c7 = some k7)
    (h8 : CODE_INDEX_MAP c8 = some k8) (h9 : CODE_INDEX_MAP c9 = some k9)
    (h10 : CODE_INDEX_MAP c10 = some k10) (h11 : CODE_INDEX_MAP c11 = some k11)
    (h12 : CODE_INDEX_MAP c12 = some k12) (h13 : CODE_INDEX_MAP c13 = some k13)
    (h14 : CODE_INDEX_MAP c14 = some k14) (h15 : CODE_INDEX_MAP c15 = some k15)
    (h16 : CODE_INDEX_MAP c16 = some k16) :
    weightedTotal (c0::c1::c2::c3::c4::c5::c6::c7::c8::c9::c10::c11::c12::c13::c14::c15::c16::rest)
      = some (k0*1 + k1*3 + k2*9 + k3*27 + k4*19 + k5*26 + k6*16 + k7*17 + k8*20 +
              k9*29 + k10*25 + k11*13 + k12*8 + k13*24 + k14*10 + k15*30 + k16*28) := by
  simp [weightedTotal, WEIGHT, h0, h1, h2, h3, h4, h5, h6, h7, h8, h9, h10, h11, h12,
    h13, h14, h15, h16]

theorem weightedTotal_some_inv {c0 c1 c2 c3 c4 c5 c6 c7 c8 c9 c10 c11 c12 c13 c14 c15 c16 : Char}
    {rest : List Char} {t : Nat}
    (h : weightedTotal
      (c0::c1::c2::c3::c4::c5::c6::c7::c8::c9::c10::c11::c12::c13::c14::c15::c16::rest)
      = some t) :
    ∃ k0 k1 k2 k3 k4 k5 k6 k7 k8 k9 k10 k11 k12 k13 k14 k15 k16,
      CODE_INDEX_MAP c0 = some k0 ∧ CODE_INDEX_MAP c1 = some k1 ∧
      CODE_INDEX_MAP c2 = some k2 ∧ CODE_INDEX_MAP c3 = some k3 ∧
      CODE_INDEX_MAP c4 = some k4 ∧ CODE_INDEX_MAP c5 = some k5 ∧
      CODE_INDEX_MAP c6 = some k6 ∧ CODE_INDEX_MAP c7 = some k7 ∧
      CODE_INDEX_MAP c8 = some k8 ∧ CODE_INDEX_MAP c9 = some k9 ∧
      CODE_INDEX_MAP c10 = some k10 ∧ CODE_INDEX_MAP c11 = some k11 ∧
      CODE_INDEX_MAP c12 = some k12 ∧ CODE_INDEX_MAP c13 = some k13 ∧
      CODE_INDEX_MAP c14 = some k14 ∧ CODE_INDEX_MAP c15 = some k15 ∧
      CODE_INDEX_MAP c16 = some k16 ∧
      t = k0*1 + k1*3 + k2*9 + k3*27 + k4*19 + k5*26 + k6*16 + k7*17 + k8*20 +
          k9*29 + k10*25 + k11*13 + k12*8 + k13*24 + k14*10 + k15*30 + k16*28 := by
  cases hc0 : CODE_INDEX_MAP c0 with
  | none => rw [show weightedTotal _ = none by simp [weightedTotal, WEIGHT, hc0]] at h; exact Option.noConfusion h
  | some k0 =>
  cases hc1 : CODE_INDEX_MAP c1 with
  | none => rw [show weightedTotal _ = none by simp [weightedTotal, WEIGHT, hc0, hc1]] at h; exact Option.noConfusion h
  | some k1 =>
  cases hc2 : CODE_INDEX_MAP c2 with
  | none => rw [show weightedTotal _ = none by simp [weightedTotal, WEIGHT, hc0, hc1, hc2]] at h; exact Option.noConfusion h
  | some k2 =>
  cases hc3 : CODE_INDEX_MAP c3 with
  | none => rw [show weightedTotal _ = none by simp [weightedTotal, WEIGHT, hc0, hc1, hc2, hc3]] at h; exact Option.noConfusion h
  | some k3 =>
  cases hc4 : CODE_INDEX_MAP c4 with
  | none => rw [show weightedTotal _ = none by simp [weightedTotal, WEIGHT, hc0, hc1, hc2, hc3, hc4]] at h; exact Option.noConfusion h
  | some k4 =>
  cases hc5 : CODE_INDEX_MAP c5 with
  | none => rw [show weightedTotal _ = none by simp [weightedTotal, WEIGHT, hc0, hc1, hc2, hc3, hc4, hc5]] at h; exact Option.noConfusion h
  | some k5 =>
  cases hc6 : CODE_INDEX_MAP c6 with
  | none => rw [show weightedTotal _ = none by simp [weightedTotal, WEIGHT, hc0, hc1, hc2, hc3, hc4, hc5, hc6]] at h; exact Option.noConfusion h
  | some k6 =>
  cases hc7 : CODE_INDEX_MAP c7 with
  | none => rw [show weightedTotal _ = none by simp [weightedTotal, WEIGHT, hc0, hc1, hc2, hc3, hc4, hc5, hc6, hc7]] at h; exact Option.noConfusion h
  | some k7 =>
  cases hc8 : CODE_INDEX_MAP c8 with
  | none => rw [show weightedTotal _ = none by simp [weightedTotal, WEIGHT, hc0, hc1, hc2, hc3, hc4, hc5, hc6, hc7, hc8]] at h; exact Option.noConfusion h
  | some k8 =>
  cases hc9 : CODE_INDEX_MAP c9 with
  | none => rw [show weightedTotal _ = none by simp [weightedTotal, WEIGHT, hc0, hc1, hc2, hc3, hc4, hc5, hc6, hc7, hc8, hc9]] at h; exact Option.noConfusion h
  | some k9 =>
  cases hc10 : CODE_INDEX_MAP c10 with
  | none => rw [show weightedTotal _ = none by simp [weightedTotal, WEIGHT, hc0, hc1, hc2, hc3, hc4, hc5, hc6, hc7, hc8, hc9, hc10]] at h; exact Option.noConfusion h
  | some k10 =>
  cases hc11 : CODE_INDEX_MAP c11 with
  | none => rw [show weightedTotal _ = none by simp [weightedTotal, WEIGHT, hc0, hc1, hc2, hc3, hc4, hc5, hc6, hc7, hc8, hc9, hc10, hc11]] at h; exact Option.noConfusion h
  | some k11 =>
  cases hc12 : CODE_INDEX_MAP c12 with
  | none => rw [show weightedTotal _ = none by simp [weightedTotal, WEIGHT, hc0, hc1, hc2, hc3, hc4, hc5, hc6, hc7, hc8, hc9, hc10, hc11, hc12]] at h; exact Option.noConfusion h
  | some k12 =>
  cases hc13 : CODE_INDEX_MAP c13 with
  | none => rw [show weightedTotal _ = none by simp [weightedTotal, WEIGHT, hc0, hc1, hc2, hc3, hc4, hc5, hc6, hc7, hc8, hc9, hc10, hc11, hc12, hc13]] at h; exact Option.noConfusion h
  | some k13 =>
  cases hc14 : CODE_INDEX_MAP c14 with
  | none => rw [show weightedTotal _ = none by simp [weightedTotal, WEIGHT, hc0, hc1, hc2, hc3, hc4, hc5, hc6, hc7, hc8, hc9, hc10, hc11, hc12, hc13, hc14]] at h; exact Option.noConfusion h
  | some k14 =>
  cases hc15 : CODE_INDEX_MAP c15 with
  | none => rw [show weightedTotal _ = none by simp [weightedTotal, WEIGHT, hc0, hc1, hc2, hc3, hc4, hc5, hc6, hc7, hc8, hc9, hc10, hc11, hc12, hc13, hc14, hc15]] at h; exact Option.noConfusion h
  | some k15 =>
  cases hc16 : CODE_INDEX_MAP c16 with
  | none => rw [show weightedTotal _ = none by simp [weightedTotal, WEIGHT, hc0, hc1, hc2, hc3, hc4, hc5, hc6, hc7, hc8, hc9, hc10, hc11, hc12, hc13, hc14, hc15, hc16]] at h; exact Option.noConfusion h
  | some k16 =>
    rw [weightedTotal_eval hc0 hc1 hc2 hc3 hc4 hc5 hc6 hc7 hc8 hc9 hc10 hc11 hc12 hc13
      hc14 hc15 hc16] at h
    exact ⟨k0, k1, k2, k3, k4, k5, k6, k7, k8, k9, k10, k11, k12, k13, k14, k15, k16,
      rfl, rfl, rfl, rfl, rfl, rfl, rfl, rfl, rfl, rfl, rfl, rfl, rfl, rfl, rfl,
      rfl, rfl, (Option.some.inj h).symm⟩

theorem regex_len {s : List Char} (h : regexMatch s = true) : s.length = 18 := by
  by_contra hl
  rw [regexMatch_false_of_len hl] at h
  exact Bool.noConfusion h

theorem valid_iff {s : List Char} :
    is_credit_code s = true ↔
      ∃ t, regexMatch s = true ∧ weightedTotal s = some t ∧
        pyUpper (s.getD 17 ' ') = BASE_CODE.getD (parityOfTotal t) ' ' := by
  unfold is_credit_code
  rw [simple_eq_regex]
  cases hr : regexMatch s with
  | false => simp
  | true =>
    have hlen := regex_len hr
    unfold get_parity_bit
    rw [if_neg (by omega : ¬ s.length < 17)]
    cases hw : weightedTotal s with
    | none => simp
    | some t =>
      have hnn : ¬ (Int.ofNat (parityOfTotal t) < 0) := by
        simp [Int.ofNat_eq_natCast]
      simp only [if_neg (by decide : ¬ (true = false)), if_neg hnn]
      simp [Int.toNat_ofNat]

theorem length_shape {s : List Char} (h : s.length = 18) :
    ∃ c0 c1 c2 c3 c4 c5 c6 c7 c8 c9 c10 c11 c12 c13 c14 c15 c16 c17,
      s = [c0, c1, c2, c3, c4, c5, c6, c7, c8, c9, c10, c11, c12, c13, c14, c15, c16, c17] := by
  rcases s with _|⟨c0,_|⟨c1,_|⟨c2,_|⟨c3,_|⟨c4,_|⟨c5,_|⟨c6,_|⟨c7,_|⟨c8,_|⟨c9,_|⟨c10,
    _|⟨c11,_|⟨c12,_|⟨c13,_|⟨c14,_|⟨c15,_|⟨c16,_|⟨c17,_|⟨c18,s⟩⟩⟩⟩⟩⟩⟩⟩⟩⟩⟩⟩⟩⟩⟩⟩⟩⟩⟩
  all_goals first
    | exact ⟨c0, c1, c2, c3, c4, c5, c6, c7, c8, c9, c10, c11, c12, c13, c14, c15,
        c16, c17, rfl⟩
    | simp at h

theorem specWeightedSum_eval {c0 c1 c2 c3 c4 c5 c6 c7 c8 c9 c10 c11 c12 c13 c14 c15 c16 c17 : Char}
    {k0 k1 k2 k3 k4 k5 k6 k7 k8 k9 k10 k11 k12 k13 k14 k15 k16 : Nat}
    (h0 : CODE_INDEX_MAP c0 = some k0) (h1 : CODE_INDEX_MAP c1 = some k1)
    (h2 : CODE_INDEX_MAP c2 = some k2) (h3 : CODE_INDEX_MAP c3 = some k3)
    (h4 : CODE_INDEX_MAP c4 = some k4) (h5 : CODE_INDEX_MAP c5 = some k5)
    (h6 : CODE_INDEX_MAP c6 = some k6) (h7 : CODE_INDEX_MAP c7 = some k7)
    (h8 : CODE_INDEX_MAP c8 = some k8) (h9 : CODE_INDEX_MAP c9 = some k9)
    (h10 : CODE_INDEX_MAP c10 = some k10) (h11 : CODE_INDEX_MAP c11 = some k11)
    (h12 : CODE_INDEX_MAP c12 = some k12) (h13 : CODE_INDEX_MAP c13 = some k13)
    (h14 : CODE_INDEX_MAP c14 = some k14) (h15 : CODE_INDEX_MAP c15 = some k15)
    (h16 : CODE_INDEX_MAP c16 = some k16) :
    specWeightedSum [c0, c1, c2, c3, c4, c5, c6, c7, c8, c9, c10, c11, c12, c13, c14, c15, c16, c17]
      = k0*1 + k1*3 + k2*9 + k3*27 + k4*19 + k5*26 + k6*16 + k7*17 + k8*20 +
        k9*29 + k10*25 + k11*13 + k12*8 + k13*24 + k14*10 + k15*30 + k16*28 := by
  rw [specWeightedSum,
    show List.range 17 = [0,1,2,3,4,5,6,7,8,9,10,11,12,13,14,15,16] from rfl]
  simp [specCharVal, WEIGHT, h0, h1, h2, h3, h4, h5, h6, h7, h8, h9, h10, h11, h12,
    h13, h14, h15, h16]
  omega

theorem specParity_eq_parityOfTotal (t : Nat) : specParity t = parityOfTotal t := rfl

/-- C1: `validate` (`is_credit_code`) returns Valid exactly for strings of
length 18 that satisfy the structural pattern (positions 0-1 and 8-17 in
the class `[0-9A-HJ-NPQRTUWXY]`, positions 2-7 ASCII digits) and whose
upper-cased 18th character equals the expected check character
`Alphabet[parity_index]` computed from the weighted sum of the first 17
characters' alphabet values. -/
theorem validate_valid_iff (s : List Char) :
    is_credit_code s = true ↔
      s.length = 18 ∧ structuralOK s ∧
      pyUpper (s.getD 17 ' ') = BASE_CODE.getD (specParity (specWeightedSum s)) ' ' := by
  constructor
  · intro h
    obtain ⟨t, hr, hw, hcheck⟩ := valid_iff.mp h
    obtain ⟨c0, c1, c2, c3, c4, c5, c6, c7, c8, c9, c10, c11, c12, c13, c14, c15, c16,
      c17, rfl⟩ := regexMatch_shape hr
    simp only [regexMatch, Bool.and_eq_true] at hr
    obtain ⟨⟨⟨⟨⟨⟨⟨⟨⟨⟨⟨⟨⟨⟨⟨⟨⟨ha1, ha2⟩, hd1⟩, hd2⟩, hd3⟩, hd4⟩, hd5⟩, hd6⟩, hb1⟩, hb2⟩,
      hb3⟩, hb4⟩, hb5⟩, hb6⟩, hb7⟩, hb8⟩, hb9⟩, hb10⟩ := hr
    obtain ⟨k0, k1, k2, k3, k4, k5, k6, k7, k8, k9, k10, k11, k12, k13, k14, k15, k16,
      hk0, hk1, hk2, hk3, hk4, hk5, hk6, hk7, hk8, hk9, hk10, hk11, hk12, hk13, hk14,
      hk15, hk16, ht⟩ := weightedTotal_some_inv hw
    refine ⟨by simp, ⟨?_, ?_, ?_⟩, ?_⟩
    · intro i hi
      interval_cases i
      · simpa using ha1
      · simpa using ha2
    · intro i hi2 hi8
      interval_cases i
      · simpa using py_digit_mem_ascii hd1 (cim_char hk2).2.2
      · simpa using py_digit_mem_ascii hd2 (cim_char hk3).2.2
      · simpa using py_digit_mem_ascii hd3 (cim_char hk4).2.2
      · simpa using py_digit_mem_ascii hd4 (cim_char hk5).2.2
      · simpa using py_digit_mem_ascii hd5 (cim_char hk6).2.2
      · simpa using py_digit_mem_ascii hd6 (cim_char hk7).2.2
    · intro i hi8 hi18
      interval_cases i
      · simpa using hb1
      · simpa using hb2
      · simpa using hb3
      · simpa using hb4
      · simpa using hb5
      · simpa using hb6
      · simpa using hb7
      · simpa using hb8
      · simpa using hb9
      · simpa using hb10
    · rw [specWeightedSum_eval hk0 hk1 hk2 hk3 hk4 hk5 hk6 hk7 hk8 hk9 hk10 hk11 hk12
        hk13 hk14 hk15 hk16, ← ht, specParity_eq_parityOfTotal]
      exact hcheck
  · rintro ⟨hlen, ⟨hs1, hs2, hs3⟩, hcheck⟩
    obtain ⟨c0, c1, c2, c3, c4, c5, c6, c7, c8, c9, c10, c11, c12, c13, c14, c15, c16,
      c17, rfl⟩ := length_shape hlen
    have ha1 : isBaseClassChar c0 = true := hs1 0 (by omega)
    have ha2 : isBaseClassChar c1 = true := hs1 1 (by omega)
    have hd1 : isAsciiDigit c2 = true := hs2 2 (by omega) (by omega)
    have hd2 : isAsciiDigit c3 = true := hs2 3 (by omega) (by omega)
    have hd3 : isAsciiDigit c4 = true := hs2 4 (by omega) (by omega)
    have hd4 : isAsciiDigit c5 = true := hs2 5 (by omega) (by omega)
    have hd5 : isAsciiDigit c6 = true := hs2 6 (by omega) (by omega)
    have hd6 : isAsciiDigit c7 = true := hs2 7 (by omega) (by omega)
    have hb1 : isBaseClassChar c8 = true := hs3 8 (by omega) (by omega)
    have hb2 : isBaseClassChar c9 = true := hs3 9 (by omega) (by omega)
    have hb3 : isBaseClassChar c10 = true := hs3 10 (by omega) (by omega)
    have hb4 : isBaseClassChar c11 = true := hs3 11 (by omega) (by omega)
    have hb5 : isBaseClassChar c12 = true := hs3 12 (by omega) (by omega)
    have hb6 : isBaseClassChar c13 = true := hs3 13 (by omega) (by omega)
    have hb7 : isBaseClassChar c14 = true := hs3 14 (by omega) (by omega)
    have hb8 : isBaseClassChar c15 = true := hs3 15 (by omega) (by omega)
    have hb9 : isBaseClassChar c16 = true := hs3 16 (by omega) (by omega)
    have hb10 : isBaseClassChar c17 = true := hs3 17 (by omega) (by omega)
    obtain ⟨k0, hk0, hlt0⟩ := cim_of_mem (class_mem ha1)
    obtain ⟨k1, hk1, hlt1⟩ := cim_of_mem (class_mem ha2)
    obtain ⟨k2, hk2, hlt2⟩ := cim_of_mem (class_mem (ascii_digit_class hd1))
    obtain ⟨k3, hk3, hlt3⟩ := cim_of_mem (class_mem (ascii_digit_class hd2))
    obtain ⟨k4, hk4, hlt4⟩ := cim_of_mem (class_mem (ascii_digit_class hd3))
    obtain ⟨k5, hk5, hlt5⟩ := cim_of_mem (class_mem (ascii_digit_class hd4))
    obtain ⟨k6, hk6, hlt6⟩ := cim_of_mem (class_mem (ascii_digit_class hd5))
    obtain ⟨k7, hk7, hlt7⟩ := cim_of_mem (class_mem (ascii_digit_class hd6))
    obtain ⟨k8, hk8, hlt8⟩ := cim_of_mem (class_mem hb1)
    obtain ⟨k9, hk9, hlt9⟩ := cim_of_mem (class_mem hb2)
    obtain ⟨k10, hk10, hlt10⟩ := cim_of_mem (class_mem hb3)
    obtain ⟨k11, hk11, hlt11⟩ := cim_of_mem (class_mem hb4)
    obtain ⟨k12, hk12, hlt12⟩ := cim_of_mem (class_mem hb5)
    obtain ⟨k13, hk13, hlt13⟩ := cim_of_mem (class_mem hb6)
    obtain ⟨k14, hk14, hlt14⟩ := cim_of_mem (class_mem hb7)
    obtain ⟨k15, hk15, hlt15⟩ := cim_of_mem (class_mem hb8)
    obtain ⟨k16, hk16, hlt16⟩ := cim_of_mem (class_mem hb9)
    refine valid_iff.mpr ⟨_, ?_, weightedTotal_eval hk0 hk1 hk2 hk3 hk4 hk5 hk6 hk7
      hk8 hk9 hk10 hk11 hk12 hk13 hk14 hk15 hk16, ?_⟩
    · simp [regexMatch, ha1, ha2, ascii_digit_py hd1, ascii_digit_py hd2,
        ascii_digit_py hd3, ascii_digit_py hd4, ascii_digit_py hd5, ascii_digit_py hd6,
        hb1, hb2, hb3, hb4, hb5, hb6, hb7, hb8, hb9, hb10]
    · rw [specWeightedSum_eval hk0 hk1 hk2 hk3 hk4 hk5 hk6 hk7 hk8 hk9 hk10 hk11 hk12
        hk13 hk14 hk15 hk16, specParity_eq_parityOfTotal] at hcheck
      simpa using hcheck

/-- C3: for a code passing the structural check (with the weighted sum of
alphabet values defined), the check-digit index equals the spec formula
`31 - (sum mod 31)` with 31 folded to 0; in particular a weighted sum that
is a multiple of 31 yields expected check character `'0'`. -/
theorem parity_index_formula (s : List Char) (t : Nat)
    (hs : is_credit_code_simple s = true) (ht : weightedTotal s = some t) :
    get_parity_bit s = Int.ofNat (specParity (specWeightedSum s)) ∧
    (specWeightedSum s % 31 = 0 →
      BASE_CODE.getD (get_parity_bit s).toNat ' ' = '0') := by
  rw [simple_eq_regex] at hs
  have hlen := regex_len hs
  obtain ⟨c0, c1, c2, c3, c4, c5, c6, c7, c8, c9, c10, c11, c12, c13, c14, c15, c16,
    c17, rfl⟩ := length_shape hlen
  obtain ⟨k0, k1, k2, k3, k4, k5, k6, k7, k8, k9, k10, k11, k12, k13, k14, k15, k16,
    hk0, hk1, hk2, hk3, hk4, hk5, hk6, hk7, hk8, hk9, hk10, hk11, hk12, hk13, hk14,
    hk15, hk16, hteq⟩ := weightedTotal_some_inv ht
  have hspec : specWeightedSum
      [c0, c1, c2, c3, c4, c5, c6, c7, c8, c9, c10, c11, c12, c13, c14, c15, c16, c17]
      = t := by
    rw [specWeightedSum_eval hk0 hk1 hk2 hk3 hk4 hk5 hk6 hk7 hk8 hk9 hk10 hk11 hk12
      hk13 hk14 hk15 hk16, ← hteq]
  have hp : get_parity_bit
      [c0, c1, c2, c3, c4, c5, c6, c7, c8, c9, c10, c11, c12, c13, c14, c15, c16, c17]
      = Int.ofNat (parityOfTotal t) := by
    unfold get_parity_bit
    rw [if_neg (by simp), ht]
  refine ⟨by rw [hp, hspec, specParity_eq_parityOfTotal], ?_⟩
  intro hmod
  rw [hspec] at hmod
  rw [hp]
  simp [parityOfTotal, hmod]
  decide

theorem invalid_of_regex_false {l : List Char} (h : regexMatch l = false) :
    is_credit_code l = false := by
  unfold is_credit_code
  rw [simple_eq_regex, h]
  simp

theorem invalid_of_total_none {l : List Char} (h : weightedTotal l = none) :
    is_credit_code l = false := by
  cases hv : is_credit_code l
  · rfl
  · obtain ⟨t, _, hw, _⟩ := valid_iff.mp hv
    rw [h] at hw
    exact Option.noConfusion hw

theorem invalid_of_check_ne {l : List Char} {t : Nat} (hw : weightedTotal l = some t)
    (hne : pyUpper (l.getD 17 ' ') ≠ BASE_CODE.getD (parityOfTotal t) ' ') :
    is_credit_code l = false := by
  cases hv : is_credit_code l
  · rfl
  · obtain ⟨t', _, hw', hch⟩ := valid_iff.mp hv
    rw [hw] at hw'
    rw [← Option.some.inj hw'] at hch
    exact absurd hch hne

theorem parity_lt (t : Nat) : parityOfTotal t < 31 := by
  unfold parityOfTotal
  split_ifs <;> omega

theorem parity_ne {a b : Nat} (h : a % 31 ≠ b % 31) :
    parityOfTotal a ≠ parityOfTotal b := by
  unfold parityOfTotal
  split_ifs <;> omega

theorem mod_term_ne {a w : Nat} (kx kj : Nat) (hkx : kx < 31) (hkj : kj < 31)
    (hne : kx ≠ kj) (hw1 : 1 ≤ w) (hw2 : w ≤ 30) :
    (a + kx * w) % 31 ≠ (a + kj * w) % 31 := by
  have h31 : Nat.Prime 31 := by norm_num
  have core : ∀ x y : Nat, y < x → x < 31 → (a + x * w) % 31 ≠ (a + y * w) % 31 := by
    intro x y hxy hx31 h
    have hmeq : y * w % 31 = x * w % 31 := by omega
    have hdvd : 31 ∣ x * w - y * w :=
      (Nat.modEq_iff_dvd' (Nat.mul_le_mul_right w (le_of_lt hxy))).mp hmeq
    rw [← Nat.sub_mul] at hdvd
    rcases (Nat.Prime.dvd_mul h31).mp hdvd with hd | hd
    · have := Nat.le_of_dvd (by omega) hd
      omega
    · have := Nat.le_of_dvd (by omega) hd
      omega
  rcases Nat.lt_or_ge kj kx with hlt | hge
  · exact core kx kj hlt hkx
  · have hlt : kx < kj := by omega
    exact fun h => core kj kx hlt hkj h.symm

set_option maxHeartbeats 1600000 in
/-- C2: corrupting any single one of the first 17 characters of a code
accepted as Valid never leaves the code Valid: the corrupted string is
rejected by the structural check, by the alphabet lookup, or by the
checksum comparison. -/
theorem single_corruption_invalidates (s : List Char) (i : Nat) (x : Char)
    (hv : is_credit_code s = true) (hi : i < 17) (hx : x ≠ s.getD i ' ') :
    is_credit_code (s.set i x) = false := by
  obtain ⟨t, hr, hw, hcheck⟩ := valid_iff.mp hv
  obtain ⟨c0, c1, c2, c3, c4, c5, c6, c7, c8, c9, c10, c11, c12, c13, c14, c15, c16,
    c17, rfl⟩ := regexMatch_shape hr
  simp only [regexMatch, Bool.and_eq_true] at hr
  obtain ⟨⟨⟨⟨⟨⟨⟨⟨⟨⟨⟨⟨⟨⟨⟨⟨⟨ha1, ha2⟩, hd1⟩, hd2⟩, hd3⟩, hd4⟩, hd5⟩, hd6⟩, hb1⟩, hb2⟩,
    hb3⟩, hb4⟩, hb5⟩, hb6⟩, hb7⟩, hb8⟩, hb9⟩, hb10⟩ := hr
  obtain ⟨k0, k1, k2, k3, k4, k5, k6, k7, k8, k9, k10, k11, k12, k13, k14, k15, k16, hk0, hk1, hk2, hk3, hk4, hk5, hk6, hk7, hk8, hk9, hk10, hk11, hk12, hk13, hk14, hk15, hk16, hteq⟩ := weightedTotal_some_inv hw
  interval_cases i
  · show is_credit_code [x, c1, c2, c3, c4, c5, c6, c7, c8, c9, c10, c11, c12, c13, c14, c15, c16, c17] = false
    cases hpx : isBaseClassChar x with
    | false => exact invalid_of_regex_false (by simp [regexMatch, hpx])
    | true =>
      obtain ⟨kx, hkx, hkxlt⟩ := cim_of_mem (class_mem hpx)
      have hne : kx ≠ k0 := by
        intro he
        have h1 := (cim_char hkx).2.1
        rw [he, (cim_char hk0).2.1] at h1
        exact hx h1.symm
      rw [hteq] at hcheck
      have hc17 : pyUpper c17 = BASE_CODE.getD (parityOfTotal (k0*1 + k1*3 + k2*9 + k3*27 + k4*19 + k5*26 + k6*16 + k7*17 + k8*20 + k9*29 + k10*25 + k11*13 + k12*8 + k13*24 + k14*10 + k15*30 + k16*28)) ' ' := hcheck
      refine invalid_of_check_ne (weightedTotal_eval hkx hk1 hk2 hk3 hk4 hk5 hk6 hk7 hk8 hk9 hk10 hk11 hk12 hk13 hk14 hk15 hk16) ?_
      show pyUpper c17 ≠ _
      rw [hc17]
      refine base_getD_ne _ (parity_lt _) _ (parity_lt _) (parity_ne ?_)
      have e1 : k0*1 + k1*3 + k2*9 + k3*27 + k4*19 + k5*26 + k6*16 + k7*17 + k8*20 + k9*29 + k10*25 + k11*13 + k12*8 + k13*24 + k14*10 + k15*30 + k16*28 = k1*3 + k2*9 + k3*27 + k4*19 + k5*26 + k6*16 + k7*17 + k8*20 + k9*29 + k10*25 + k11*13 + k12*8 + k13*24 + k14*10 + k15*30 + k16*28 + k0 * 1 := by ring
      have e2 : kx*1 + k1*3 + k2*9 + k3*27 + k4*19 + k5*26 + k6*16 + k7*17 + k8*20 + k9*29 + k10*25 + k11*13 + k12*8 + k13*24 + k14*10 + k15*30 + k16*28 = k1*3 + k2*9 + k3*27 + k4*19 + k5*26 + k6*16 + k7*17 + k8*20 + k9*29 + k10*25 + k11*13 + k12*8 + k13*24 + k14*10 + k15*30 + k16*28 + kx * 1 := by ring
      rw [e1, e2]
      exact mod_term_ne k0 kx (cim_char hk0).1 (cim_char hkx).1
        (fun he => hne he.symm) (by omega) (by omega)
  · show is_credit_code [c0, x, c2, c3, c4, c5, c6, c7, c8, c9, c10, c11, c12, c13, c14, c15, c16, c17] = false
    cases hpx : isBaseClassChar x with
    | false => exact invalid_of_regex_false (by simp [regexMatch, hpx])
    | true =>
      obtain ⟨kx, hkx, hkxlt⟩ := cim_of_mem (class_mem hpx)
      have hne : kx ≠ k1 := by
        intro he
        have h1 := (cim_char hkx).2.1
        rw [he, (cim_char hk1).2.1] at h1
        exact hx h1.symm
      rw [hteq] at hcheck
      have hc17 : pyUpper c17 = BASE_CODE.getD (parityOfTotal (k0*1 + k1*3 + k2*9 + k3*27 + k4*19 + k5*26 + k6*16 + k7*17 + k8*20 + k9*29 + k10*25 + k11*13 + k12*8 + k13*24 + k14*10 + k15*30 + k16*28)) ' ' := hcheck
      refine invalid_of_check_ne (weightedTotal_eval hk0 hkx hk2 hk3 hk4 hk5 hk6 hk7 hk8 hk9 hk10 hk11 hk12 hk13 hk14 hk15 hk16) ?_
      show pyUpper c17 ≠ _
      rw [hc17]
      refine base_getD_ne _ (parity_lt _) _ (parity_lt _) (parity_ne ?_)
      have e1 : k0*1 + k1*3 + k2*9 + k3*27 + k4*19 + k5*26 + k6*16 + k7*17 + k8*20 + k9*29 + k10*25 + k11*13 + k12*8 + k13*24 + k14*10 + k15*30 + k16*28 = k0*1 + k2*9 + k3*27 + k4*19 + k5*26 + k6*16 + k7*17 + k8*20 + k9*29 + k10*25 + k11*13 + k12*8 + k13*24 + k14*10 + k15*30 + k16*28 + k1 * 3 := by ring
      have e2 : k0*1 + kx*3 + k2*9 + k3*27 + k4*19 + k5*26 + k6*16 + k7*17 + k8*20 + k9*29 + k10*25 + k11*13 + k12*8 + k13*24 + k14*10 + k15*30 + k16*28 = k0*1 + k2*9 + k3*27 + k4*19 + k5*26 + k6*16 + k7*17 + k8*20 + k9*29 + k10*25 + k11*13 + k12*8 + k13*24 + k14*10 + k15*30 + k16*28 + kx * 3 := by ring
      rw [e1, e2]
      exact mod_term_ne k1 kx (cim_char hk1).1 (cim_char hkx).1
        (fun he => hne he.symm) (by omega) (by omega)
  · show is_credit_code [c0, c1, x, c3, c4, c5, c6, c7, c8, c9, c10, c11, c12, c13, c14, c15, c16, c17] = false
    cases hpx : pyIsDigit x with
    | false => exact invalid_of_regex_false (by simp [regexMatch, hpx])
    | true =>
      cases hkx : CODE_INDEX_MAP x with
      | none =>
        exact invalid_of_total_none
          (by simp [weightedTotal, WEIGHT, hk0, hk1, hkx])
      | some kx =>
        have hne : kx ≠ k2 := by
          intro he
          have h1 := (cim_char hkx).2.1
          rw [he, (cim_char hk2).2.1] at h1
          exact hx h1.symm
        rw [hteq] at hcheck
        have hc17 : pyUpper c17 = BASE_CODE.getD (parityOfTotal (k0*1 + k1*3 + k2*9 + k3*27 + k4*19 + k5*26 + k6*16 + k7*17 + k8*20 + k9*29 + k10*25 + k11*13 + k12*8 + k13*24 + k14*10 + k15*30 + k16*28)) ' ' := hcheck
        refine invalid_of_check_ne (weightedTotal_eval hk0 hk1 hkx hk3 hk4 hk5 hk6 hk7 hk8 hk9 hk10 hk11 hk12 hk13 hk14 hk15 hk16) ?_
        show pyUpper c17 ≠ _
        rw [hc17]
        refine base_getD_ne _ (parity_lt _) _ (parity_lt _) (parity_ne ?_)
        have e1 : k0*1 + k1*3 + k2*9 + k3*27 + k4*19 + k5*26 + k6*16 + k7*17 + k8*20 + k9*29 + k10*25 + k11*13 + k12*8 + k13*24 + k14*10 + k15*30 + k16*28 = k0*1 + k1*3 + k3*27 + k4*19 + k5*26 + k6*16 + k7*17 + k8*20 + k9*29 + k10*25 + k11*13 + k12*8 + k13*24 + k14*10 + k15*30 + k16*28 + k2 * 9 := by ring
        have e2 : k0*1 + k1*3 + kx*9 + k3*27 + k4*19 + k5*26 + k6*16 + k7*17 + k8*20 + k9*29 + k10*25 + k11*13 + k12*8 + k13*24 + k14*10 + k15*30 + k16*28 = k0*1 + k1*3 + k3*27 + k4*19 + k5*26 + k6*16 + k7*17 + k8*20 + k9*29 + k10*25 + k11*13 + k12*8 + k13*24 + k14*10 + k15*30 + k16*28 + kx * 9 := by ring
        rw [e1, e2]
        exact mod_term_ne k2 kx (cim_char hk2).1 (cim_char hkx).1
          (fun he => hne he.symm) (by omega) (by omega)
  · show is_credit_code [c0, c1, c2, x, c4, c5, c6, c7, c8, c9, c10, c11, c12, c13, c14, c15, c16, c17] = false
    cases hpx : pyIsDigit x with
    | false => exact invalid_of_regex_false (by simp [regexMatch, hpx])
    | true =>
      cases hkx : CODE_INDEX_MAP x with
      | none =>
        exact invalid_of_total_none
          (by simp [weightedTotal, WEIGHT, hk0, hk1, hk2, hkx])
      | some kx =>
        have hne : kx ≠ k3 := by
          intro he
          have h1 := (cim_char hkx).2.1
          rw [he, (cim_char hk3).2.1] at h1
          exact hx h1.symm
        rw [hteq] at hcheck
        have hc17 : pyUpper c17 = BASE_CODE.getD (parityOfTotal (k0*1 + k1*3 + k2*9 + k3*27 + k4*19 + k5*26 + k6*16 + k7*17 + k8*20 + k9*29 + k10*25 + k11*13 + k12*8 + k13*24 + k14*10 + k15*30 + k16*28)) ' ' := hcheck
        refine invalid_of_check_ne (weightedTotal_eval hk0 hk1 hk2 hkx hk4 hk5 hk6 hk7 hk8 hk9 hk10 hk11 hk12 hk13 hk14 hk15 hk16) ?_
        show pyUpper c17 ≠ _
        rw [hc17]
        refine base_getD_ne _ (parity_lt _) _ (parity_lt _) (parity_ne ?_)
        have e1 : k0*1 + k1*3 + k2*9 + k3*27 + k4*19 + k5*26 + k6*16 + k7*17 + k8*20 + k9*29 + k10*25 + k11*13 + k12*8 + k13*24 + k14*10 + k15*30 + k16*28 = k0*1 + k1*3 + k2*9 + k4*19 + k5*26 + k6*16 + k7*17 + k8*20 + k9*29 + k10*25 + k11*13 + k12*8 + k13*24 + k14*10 + k15*30 + k16*28 + k3 * 27 := by ring
        have e2 : k0*1 + k1*3 + k2*9 + kx*27 + k4*19 + k5*26 + k6*16 + k7*17 + k8*20 + k9*29 + k10*25 + k11*13 + k12*8 + k13*24 + k14*10 + k15*30 + k16*28 = k0*1 + k1*3 + k2*9 + k4*19 + k5*26 + k6*16 + k7*17 + k8*20 + k9*29 + k10*25 + k11*13 + k12*8 + k13*24 + k14*10 + k15*30 + k16*28 + kx * 27 := by ring
        rw [e1, e2]
        exact mod_term_ne k3 kx (cim_char hk3).1 (cim_char hkx).1
          (fun he => hne he.symm) (by omega) (by omega)
  · show is_credit_code [c0, c1, c2, c3, x, c5, c6, c7, c8, c9, c10, c11, c12, c13, c14, c15, c16, c17] = false
    cases hpx : pyIsDigit x with
    | false => exact invalid_of_regex_false (by simp [regexMatch, hpx])
    | true =>
      cases hkx : CODE_INDEX_MAP x with
      | none =>
        exact invalid_of_total_none
          (by simp [weightedTotal, WEIGHT, hk0, hk1, hk2, hk3, hkx])
      | some kx =>
        have hne : kx ≠ k4 := by
          intro he
          have h1 := (cim_char hkx).2.1
          rw [he, (cim_char hk4).2.1] at h1
          exact hx h1.symm
        rw [hteq] at hcheck
        have hc17 : pyUpper c17 = BASE_CODE.getD (parityOfTotal (k0*1 + k1*3 + k2*9 + k3*27 + k4*19 + k5*26 + k6*16 + k7*17 + k8*20 + k9*29 + k10*25 + k11*13 + k12*8 + k13*24 + k14*10 + k15*30 + k16*28)) ' ' := hcheck
        refine invalid_of_check_ne (weightedTotal_eval hk0 hk1 hk2 hk3 hkx hk5 hk6 hk7 hk8 hk9 hk10 hk11 hk12 hk13 hk14 hk15 hk16) ?_
        show pyUpper c17 ≠ _
        rw [hc17]
        refine base_getD_ne _ (parity_lt _) _ (parity_lt _) (parity_ne ?_)
        have e1 : k0*1 + k1*3 + k2*9 + k3*27 + k4*19 + k5*26 + k6*16 + k7*17 + k8*20 + k9*29 + k10*25 + k11*13 + k12*8 + k13*24 + k14*10 + k15*30 + k16*28 = k0*1 + k1*3 + k2*9 + k3*27 + k5*26 + k6*16 + k7*17 + k8*20 + k9*29 + k10*25 + k11*13 + k12*8 + k13*24 + k14*10 + k15*30 + k16*28 + k4 * 19 := by ring
        have e2 : k0*1 + k1*3 + k2*9 + k3*27 + kx*19 + k5*26 + k6*16 + k7*17 + k8*20 + k9*29 + k10*25 + k11*13 + k12*8 + k13*24 + k14*10 + k15*30 + k16*28 = k0*1 + k1*3 + k2*9 + k3*27 + k5*26 + k6*16 + k7*17 + k8*20 + k9*29 + k10*25 + k11*13 + k12*8 + k13*24 + k14*10 + k15*30 + k16*28 + kx * 19 := by ring
        rw [e1, e2]
        exact mod_term_ne k4 kx (cim_char hk4).1 (cim_char hkx).1
          (fun he => hne he.symm) (by omega) (by omega)
  · show is_credit_code [c0, c1, c2, c3, c4, x, c6, c7, c8, c9, c10, c11, c12, c13, c14, c15, c16, c17] = false
    cases hpx : pyIsDigit x with
    | false => exact invalid_of_regex_false (by simp [regexMatch, hpx])
    | true =>
      cases hkx : CODE_INDEX_MAP x with
      | none =>
        exact invalid_of_total_none
          (by simp [weightedTotal, WEIGHT, hk0, hk1, hk2, hk3, hk4, hkx])
      | some kx =>
        have hne : kx ≠ k5 := by
          intro he
          have h1 := (cim_char hkx).2.1
          rw [he, (cim_char hk5).2.1] at h1
          exact hx h1.symm
        rw [hteq] at hcheck
        have hc17 : pyUpper c17 = BASE_CODE.getD (parityOfTotal (k0*1 + k1*3 + k2*9 + k3*27 + k4*19 + k5*26 + k6*16 + k7*17 + k8*20 + k9*29 + k10*25 + k11*13 + k12*8 + k13*24 + k14*10 + k15*30 + k16*28)) ' ' := hcheck
        refine invalid_of_check_ne (weightedTotal_eval hk0 hk1 hk2 hk3 hk4 hkx hk6 hk7 hk8 hk9 hk10 hk11 hk12 hk13 hk14 hk15 hk16) ?_
        show pyUpper c17 ≠ _
        rw [hc17]
        refine base_getD_ne _ (parity_lt _) _ (parity_lt _) (parity_ne ?_)
        have e1 : k0*1 + k1*3 + k2*9 + k3*27 + k4*19 + k5*26 + k6*16 + k7*17 + k8*20 + k9*29 + k10*25 + k11*13 + k12*8 + k13*24 + k14*10 + k15*30 + k16*28 = k0*1 + k1*3 + k2*9 + k3*27 + k4*19 + k6*16 + k7*17 + k8*20 + k9*29 + k10*25 + k11*13 + k12*8 + k13*24 + k14*10 + k15*30 + k16*28 + k5 * 26 := by ring
        have e2 : k0*1 + k1*3 + k2*9 + k3*27 + k4*19 + kx*26 + k6*16 + k7*17 + k8*20 + k9*29 + k10*25 + k11*13 + k12*8 + k13*24 + k14*10 + k15*30 + k16*28 = k0*1 + k1*3 + k2*9 + k3*27 + k4*19 + k6*16 + k7*17 + k8*20 + k9*29 + k10*25 + k11*13 + k12*8 + k13*24 + k14*10 + k15*30 + k16*28 + kx * 26 := by ring
        rw [e1, e2]
        exact mod_term_ne k5 kx (cim_char hk5).1 (cim_char hkx).1
          (fun he => hne he.symm) (by omega) (by omega)
  · show is_credit_code [c0, c1, c2, c3, c4, c5, x, c7, c8, c9, c10, c11, c12, c13, c14, c15, c16, c17] = false
    cases hpx : pyIsDigit x with
    | false => exact invalid_of_regex_false (by simp [regexMatch, hpx])
    | true =>
      cases hkx : CODE_INDEX_MAP x with
      | none =>
        exact invalid_of_total_none
          (by simp [weightedTotal, WEIGHT, hk0, hk1, hk2, hk3, hk4, hk5, hkx])
      | some kx =>
        have hne : kx ≠ k6 := by
          intro he
          have h1 := (cim_char hkx).2.1
          rw [he, (cim_char hk6).2.1] at h1
          exact hx h1.symm
        rw [hteq] at hcheck
        have hc17 : pyUpper c17 = BASE_CODE.getD (parityOfTotal (k0*1 + k1*3 + k2*9 + k3*27 + k4*19 + k5*26 + k6*16 + k7*17 + k8*20 + k9*29 + k10*25 + k11*13 + k12*8 + k13*24 + k14*10 + k15*30 + k16*28)) ' ' := hcheck
        refine invalid_of_check_ne (weightedTotal_eval hk0 hk1 hk2 hk3 hk4 hk5 hkx hk7 hk8 hk9 hk10 hk11 hk12 hk13 hk14 hk15 hk16) ?_
        show pyUpper c17 ≠ _
        rw [hc17]
        refine base_getD_ne _ (parity_lt _) _ (parity_lt _) (parity_ne ?_)
        have e1 : k0*1 + k1*3 + k2*9 + k3*27 + k4*19 + k5*26 + k6*16 + k7*17 + k8*20 + k9*29 + k10*25 + k11*13 + k12*8 + k13*24 + k14*10 + k15*30 + k16*28 = k0*1 + k1*3 + k2*9 + k3*27 + k4*19 + k5*26 + k7*17 + k8*20 + k9*29 + k10*25 + k11*13 + k12*8 + k13*24 + k14*10 + k15*30 + k16*28 + k6 * 16 := by ring
        have e2 : k0*1 + k1*3 + k2*9 + k3*27 + k4*19 + k5*26 + kx*16 + k7*17 + k8*20 + k9*29 + k10*25 + k11*13 + k12*8 + k13*24 + k14*10 + k15*30 + k16*28 = k0*1 + k1*3 + k2*9 + k3*27 + k4*19 + k5*26 + k7*17 + k8*20 + k9*29 + k10*25 + k11*13 + k12*8 + k13*24 + k14*10 + k15*30 + k16*28 + kx * 16 := by ring
        rw [e1, e2]
        exact mod_term_ne k6 kx (cim_char hk6).1 (cim_char hkx).1
          (fun he => hne he.symm) (by omega) (by omega)
  · show is_credit_code [c0, c1, c2, c3, c4, c5, c6, x, c8, c9, c10, c11, c12, c13, c14, c15, c16, c17] = false
    cases hpx : pyIsDigit x with
    | false => exact invalid_of_regex_false (by simp [regexMatch, hpx])
    | true =>
      cases hkx : CODE_INDEX_MAP x with
      | none =>
        exact invalid_of_total_none
          (by simp [weightedTotal, WEIGHT, hk0, hk1, hk2, hk3, hk4, hk5, hk6, hkx])
      | some kx =>
        have hne : kx ≠ k7 := by
          intro he
          have h1 := (cim_char hkx).2.1
          rw [he, (cim_char hk7).2.1] at h1
          exact hx h1.symm
        rw [hteq] at hcheck
        have hc17 : pyUpper c17 = BASE_CODE.getD (parityOfTotal (k0*1 + k1*3 + k2*9 + k3*27 + k4*19 + k5*26 + k6*16 + k7*17 + k8*20 + k9*29 + k10*25 + k11*13 + k12*8 + k13*24 + k14*10 + k15*30 + k16*28)) ' ' := hcheck
        refine invalid_of_check_ne (weightedTotal_eval hk0 hk1 hk2 hk3 hk4 hk5 hk6 hkx hk8 hk9 hk10 hk11 hk12 hk13 hk14 hk15 hk16) ?_
        show pyUpper c17 ≠ _
        rw [hc17]
        refine base_getD_ne _ (parity_lt _) _ (parity_lt _) (parity_ne ?_)
        have e1 : k0*1 + k1*3 + k2*9 + k3*27 + k4*19 + k5*26 + k6*16 + k7*17 + k8*20 + k9*29 + k10*25 + k11*13 + k12*8 + k13*24 + k14*10 + k15*30 + k16*28 = k0*1 + k1*3 + k2*9 + k3*27 + k4*19 + k5*26 + k6*16 + k8*20 + k9*29 + k10*25 + k11*13 + k12*8 + k13*24 + k14*10 + k15*30 + k16*28 + k7 * 17 := by ring
        have e2 : k0*1 + k1*3 + k2*9 + k3*27 + k4*19 + k5*26 + k6*16 + kx*17 + k8*20 + k9*29 + k10*25 + k11*13 + k12*8 + k13*24 + k14*10 + k15*30 + k16*28 = k0*1 + k1*3 + k2*9 + k3*27 + k4*19 + k5*26 + k6*16 + k8*20 + k9*29 + k10*25 + k11*13 + k12*8 + k13*24 + k14*10 + k15*30 + k16*28 + kx * 17 := by ring
        rw [e1, e2]
        exact mod_term_ne k7 kx (cim_char hk7).1 (cim_char hkx).1
          (fun he => hne he.symm) (by omega) (by omega)
  · show is_credit_code [c0, c1, c2, c3, c4, c5, c6, c7, x, c9, c10, c11, c12, c13, c14, c15, c16, c17] = false
    cases hpx : isBaseClassChar x with
    | false => exact invalid_of_regex_false (by simp [regexMatch, hpx])
    | true =>
      obtain ⟨kx, hkx, hkxlt⟩ := cim_of_mem (class_mem hpx)
      have hne : kx ≠ k8 := by
        intro he
        have h1 := (cim_char hkx).2.1
        rw [he, (cim_char hk8).2.1] at h1
        exact hx h1.symm
      rw [hteq] at hcheck
      have hc17 : pyUpper c17 = BASE_CODE.getD (parityOfTotal (k0*1 + k1*3 + k2*9 + k3*27 + k4*19 + k5*26 + k6*16 + k7*17 + k8*20 + k9*29 + k10*25 + k11*13 + k12*8 + k13*24 + k14*10 + k15*30 + k16*28)) ' ' := hcheck
      refine invalid_of_check_ne (weightedTotal_eval hk0 hk1 hk2 hk3 hk4 hk5 hk6 hk7 hkx hk9 hk10 hk11 hk12 hk13 hk14 hk15 hk16) ?_
      show pyUpper c17 ≠ _
      rw [hc17]
      refine base_getD_ne _ (parity_lt _) _ (parity_lt _) (parity_ne ?_)
      have e1 : k0*1 + k1*3 + k2*9 + k3*27 + k4*19 + k5*26 + k6*16 + k7*17 + k8*20 + k9*29 + k10*25 + k11*13 + k12*8 + k13*24 + k14*10 + k15*30 + k16*28 = k0*1 + k1*3 + k2*9 + k3*27 + k4*19 + k5*26 + k6*16 + k7*17 + k9*29 + k10*25 + k11*13 + k12*8 + k13*24 + k14*10 + k15*30 + k16*28 + k8 * 20 := by ring
      have e2 : k0*1 + k1*3 + k2*9 + k3*27 + k4*19 + k5*26 + k6*16 + k7*17 + kx*20 + k9*29 + k10*25 + k11*13 + k12*8 + k13*24 + k14*10 + k15*30 + k16*28 = k0*1 + k1*3 + k2*9 + k3*27 + k4*19 + k5*26 + k6*16 + k7*17 + k9*29 + k10*25 + k11*13 + k12*8 + k13*24 + k14*10 + k15*30 + k16*28 + kx * 20 := by ring
      rw [e1, e2]
      exact mod_term_ne k8 kx (cim_char hk8).1 (cim_char hkx).1
        (fun he => hne he.symm) (by omega) (by omega)
  · show is_credit_code [c0, c1, c2, c3, c4, c5, c6, c7, c8, x, c10, c11, c12, c13, c14, c15, c16, c17] = false
    cases hpx : isBaseClassChar x with
    | false => exact invalid_of_regex_false (by simp [regexMatch, hpx])
    | true =>
      obtain ⟨kx, hkx, hkxlt⟩ := cim_of_mem (class_mem hpx)
      have hne : kx ≠ k9 := by
        intro he
        have h1 := (cim_char hkx).2.1
        rw [he, (cim_char hk9).2.1] at h1
        exact hx h1.symm
      rw [hteq] at hcheck
      have hc17 : pyUpper c17 = BASE_CODE.getD (parityOfTotal (k0*1 + k1*3 + k2*9 + k3*27 + k4*19 + k5*26 + k6*16 + k7*17 + k8*20 + k9*29 + k10*25 + k11*13 + k12*8 + k13*24 + k14*10 + k15*30 + k16*28)) ' ' := hcheck
      refine invalid_of_check_ne (weightedTotal_eval hk0 hk1 hk2 hk3 hk4 hk5 hk6 hk7 hk8 hkx hk10 hk11 hk12 hk13 hk14 hk15 hk16) ?_
      show pyUpper c17 ≠ _
      rw [hc17]
      refine base_getD_ne _ (parity_lt _) _ (parity_lt _) (parity_ne ?_)
      have e1 : k0*1 + k1*3 + k2*9 + k3*27 + k4*19 + k5*26 + k6*16 + k7*17 + k8*20 + k9*29 + k10*25 + k11*13 + k12*8 + k13*24 + k14*10 + k15*30 + k16*28 = k0*1 + k1*3 + k2*9 + k3*27 + k4*19 + k5*26 + k6*16 + k7*17 + k8*20 + k10*25 + k11*13 + k12*8 + k13*24 + k14*10 + k15*30 + k16*28 + k9 * 29 := by ring
      have e2 : k0*1 + k1*3 + k2*9 + k3*27 + k4*19 + k5*26 + k6*16 + k7*17 + k8*20 + kx*29 + k10*25 + k11*13 + k12*8 + k13*24 + k14*10 + k15*30 + k16*28 = k0*1 + k1*3 + k2*9 + k3*27 + k4*19 + k5*26 + k6*16 + k7*17 + k8*20 + k10*25 + k11*13 + k12*8 + k13*24 + k14*10 + k15*30 + k16*28 + kx * 29 := by ring
      rw [e1, e2]
      exact mod_term_ne k9 kx (cim_char hk9).1 (cim_char hkx).1
        (fun he => hne he.symm) (by omega) (by omega)
  · show is_credit_code [c0, c1, c2, c3, c4, c5, c6, c7, c8, c9, x, c11, c12, c13, c14, c15, c16, c17] = false
    cases hpx : isBaseClassChar x with
    | false => exact invalid_of_regex_false (by simp [regexMatch, hpx])
    | true =>
      obtain ⟨kx, hkx, hkxlt⟩ := cim_of_mem (class_mem hpx)
      have hne : kx ≠ k10 := by
        intro he
        have h1 := (cim_char hkx).2.1
        rw [he, (cim_char hk10).2.1] at h1
        exact hx h1.symm
      rw [hteq] at hcheck
      have hc17 : pyUpper c17 = BASE_CODE.getD (parityOfTotal (k0*1 + k1*3 + k2*9 + k3*27 + k4*19 + k5*26 + k6*16 + k7*17 + k8*20 + k9*29 + k10*25 + k11*13 + k12*8 + k13*24 + k14*10 + k15*30 + k16*28)) ' ' := hcheck
      refine invalid_of_check_ne (weightedTotal_eval hk0 hk1 hk2 hk3 hk4 hk5 hk6 hk7 hk8 hk9 hkx hk11 hk12 hk13 hk14 hk15 hk16) ?_
      show pyUpper c17 ≠ _
      rw [hc17]
      refine base_getD_ne _ (parity_lt _) _ (parity_lt _) (parity_ne ?_)
      have e1 : k0*1 + k1*3 + k2*9 + k3*27 + k4*19 + k5*26 + k6*16 + k7*17 + k8*20 + k9*29 + k10*25 + k11*13 + k12*8 + k13*24 + k14*10 + k15*30 + k16*28 = k0*1 + k1*3 + k2*9 + k3*27 + k4*19 + k5*26 + k6*16 + k7*17 + k8*20 + k9*29 + k11*13 + k12*8 + k13*24 + k14*10 + k15*30 + k16*28 + k10 * 25 := by ring
      have e2 : k0*1 + k1*3 + k2*9 + k3*27 + k4*19 + k5*26 + k6*16 + k7*17 + k8*20 + k9*29 + kx*25 + k11*13 + k12*8 + k13*24 + k14*10 + k15*30 + k16*28 = k0*1 + k1*3 + k2*9 + k3*27 + k4*19 + k5*26 + k6*16 + k7*17 + k8*20 + k9*29 + k11*13 + k12*8 + k13*24 + k14*10 + k15*30 + k16*28 + kx * 25 := by ring
      rw [e1, e2]
      exact mod_term_ne k10 kx (cim_char hk10).1 (cim_char hkx).1
        (fun he => hne he.symm) (by omega) (by omega)
  · show is_credit_code [c0, c1, c2, c3, c4, c5, c6, c7, c8, c9, c10, x, c12, c13, c14, c15, c16, c17] = false
    cases hpx : isBaseClassChar x with
    | false => exact invalid_of_regex_false (by simp [regexMatch, hpx])
    | true =>
      obtain ⟨kx, hkx, hkxlt⟩ := cim_of_mem (class_mem hpx)
      have hne : kx ≠ k11 := by
        intro he
        have h1 := (cim_char hkx).2.1
        rw [he, (cim_char hk11).2.1] at h1
        exact hx h1.symm
      rw [hteq] at hcheck
      have hc17 : pyUpper c17 = BASE_CODE.getD (parityOfTotal (k0*1 + k1*3 + k2*9 + k3*27 + k4*19 + k5*26 + k6*16 + k7*17 + k8*20 + k9*29 + k10*25 + k11*13 + k12*8 + k13*24 + k14*10 + k15*30 + k16*28)) ' ' := hcheck
      refine invalid_of_check_ne (weightedTotal_eval hk0 hk1 hk2 hk3 hk4 hk5 hk6 hk7 hk8 hk9 hk10 hkx hk12 hk13 hk14 hk15 hk16) ?_
      show pyUpper c17 ≠ _
      rw [hc17]
      refine base_getD_ne _ (parity_lt _) _ (parity_lt _) (parity_ne ?_)
      have e1 : k0*1 + k1*3 + k2*9 + k3*27 + k4*19 + k5*26 + k6*16 + k7*17 + k8*20 + k9*29 + k10*25 + k11*13 + k12*8 + k13*24 + k14*10 + k15*30 + k16*28 = k0*1 + k1*3 + k2*9 + k3*27 + k4*19 + k5*26 + k6*16 + k7*17 + k8*20 + k9*29 + k10*25 + k12*8 + k13*24 + k14*10 + k15*30 + k16*28 + k11 * 13 := by ring
      have e2 : k0*1 + k1*3 + k2*9 + k3*27 + k4*19 + k5*26 + k6*16 + k7*17 + k8*20 + k9*29 + k10*25 + kx*13 + k12*8 + k13*24 + k14*10 + k15*30 + k16*28 = k0*1 + k1*3 + k2*9 + k3*27 + k4*19 + k5*26 + k6*16 + k7*17 + k8*20 + k9*29 + k10*25 + k12*8 + k13*24 + k14*10 + k15*30 + k16*28 + kx * 13 := by ring
      rw [e1, e2]
      exact mod_term_ne k11 kx (cim_char hk11).1 (cim_char hkx).1
        (fun he => hne he.symm) (by omega) (by omega)
  · show is_credit_code [c0, c1, c2, c3, c4, c5, c6, c7, c8, c9, c10, c11, x, c13, c14, c15, c16, c17] = false
    cases hpx : isBaseClassChar x with
    | false => exact invalid_of_regex_false (by simp [regexMatch, hpx])
    | true =>
      obtain ⟨kx, hkx, hkxlt⟩ := cim_of_mem (class_mem hpx)
      have hne : kx ≠ k12 := by
        intro he
        have h1 := (cim_char hkx).2.1
        rw [he, (cim_char hk12).2.1] at h1
        exact hx h1.symm
      rw [hteq] at hcheck
      have hc17 : pyUpper c17 = BASE_CODE.getD (parityOfTotal (k0*1 + k1*3 + k2*9 + k3*27 + k4*19 + k5*26 + k6*16 + k7*17 + k8*20 + k9*29 + k10*25 + k11*13 + k12*8 + k13*24 + k14*10 + k15*30 + k16*28)) ' ' := hcheck
      refine invalid_of_check_ne (weightedTotal_eval hk0 hk1 hk2 hk3 hk4 hk5 hk6 hk7 hk8 hk9 hk10 hk11 hkx hk13 hk14 hk15 hk16) ?_
      show pyUpper c17 ≠ _
      rw [hc17]
      refine base_getD_ne _ (parity_lt _) _ (parity_lt _) (parity_ne ?_)
      have e1 : k0*1 + k1*3 + k2*9 + k3*27 + k4*19 + k5*26 + k6*16 + k7*17 + k8*20 + k9*29 + k10*25 + k11*13 + k12*8 + k13*24 + k14*10 + k15*30 + k16*28 = k0*1 + k1*3 + k2*9 + k3*27 + k4*19 + k5*26 + k6*16 + k7*17 + k8*20 + k9*29 + k10*25 + k11*13 + k13*24 + k14*10 + k15*30 + k16*28 + k12 * 8 := by ring
      have e2 : k0*1 + k1*3 + k2*9 + k3*27 + k4*19 + k5*26 + k6*16 + k7*17 + k8*20 + k9*29 + k10*25 + k11*13 + kx*8 + k13*24 + k14*10 + k15*30 + k16*28 = k0*1 + k1*3 + k2*9 + k3*27 + k4*19 + k5*26 + k6*16 + k7*17 + k8*20 + k9*29 + k10*25 + k11*13 + k13*24 + k14*10 + k15*30 + k16*28 + kx * 8 := by ring
      rw [e1, e2]
      exact mod_term_ne k12 kx (cim_char hk12).1 (cim_char hkx).1
        (fun he => hne he.symm) (by omega) (by omega)
  · show is_credit_code [c0, c1, c2, c3, c4, c5, c6, c7, c8, c9, c10, c11, c12, x, c14, c15, c16, c17] = false
    cases hpx : isBaseClassChar x with
    | false => exact invalid_of_regex_false (by simp [regexMatch, hpx])
    | true =>
      obtain ⟨kx, hkx, hkxlt⟩ := cim_of_mem (class_mem hpx)
      have hne : kx ≠ k13 := by
        intro he
        have h1 := (cim_char hkx).2.1
        rw [he, (cim_char hk13).2.1] at h1
        exact hx h1.symm
      rw [hteq] at hcheck
      have hc17 : pyUpper c17 = BASE_CODE.getD (parityOfTotal (k0*1 + k1*3 + k2*9 + k3*27 + k4*19 + k5*26 + k6*16 + k7*17 + k8*20 + k9*29 + k10*25 + k11*13 + k12*8 + k13*24 + k14*10 + k15*30 + k16*28)) ' ' := hcheck
      refine invalid_of_check_ne (weightedTotal_eval hk0 hk1 hk2 hk3 hk4 hk5 hk6 hk7 hk8 hk9 hk10 hk11 hk12 hkx hk14 hk15 hk16) ?_
      show pyUpper c17 ≠ _
      rw [hc17]
      refine base_getD_ne _ (parity_lt _) _ (parity_lt _) (parity_ne ?_)
      have e1 : k0*1 + k1*3 + k2*9 + k3*27 + k4*19 + k5*26 + k6*16 + k7*17 + k8*20 + k9*29 + k10*25 + k11*13 + k12*8 + k13*24 + k14*10 + k15*30 + k16*28 = k0*1 + k1*3 + k2*9 + k3*27 + k4*19 + k5*26 + k6*16 + k7*17 + k8*20 + k9*29 + k10*25 + k11*13 + k12*8 + k14*10 + k15*30 + k16*28 + k13 * 24 := by ring
      have e2 : k0*1 + k1*3 + k2*9 + k3*27 + k4*19 + k5*26 + k6*16 + k7*17 + k8*20 + k9*29 + k10*25 + k11*13 + k12*8 + kx*24 + k14*10 + k15*30 + k16*28 = k0*1 + k1*3 + k2*9 + k3*27 + k4*19 + k5*26 + k6*16 + k7*17 + k8*20 + k9*29 + k10*25 + k11*13 + k12*8 + k14*10 + k15*30 + k16*28 + kx * 24 := by ring
      rw [e1, e2]
      exact mod_term_ne k13 kx (cim_char hk13).1 (cim_char hkx).1
        (fun he => hne he.symm) (by omega) (by omega)
  · show is_credit_code [c0, c1, c2, c3, c4, c5, c6, c7, c8, c9, c10, c11, c12, c13, x, c15, c16, c17] = false
    cases hpx : isBaseClassChar x with
    | false => exact invalid_of_regex_false (by simp [regexMatch, hpx])
    | true =>
      obtain ⟨kx, hkx, hkxlt⟩ := cim_of_mem (class_mem hpx)
      have hne : kx ≠ k14 := by
        intro he
        have h1 := (cim_char hkx).2.1
        rw [he, (cim_char hk14).2.1] at h1
        exact hx h1.symm
      rw [hteq] at hcheck
      have hc17 : pyUpper c17 = BASE_CODE.getD (parityOfTotal (k0*1 + k1*3 + k2*9 + k3*27 + k4*19 + k5*26 + k6*16 + k7*17 + k8*20 + k9*29 + k10*25 + k11*13 + k12*8 + k13*24 + k14*10 + k15*30 + k16*28)) ' ' := hcheck
      refine invalid_of_check_ne (weightedTotal_eval hk0 hk1 hk2 hk3 hk4 hk5 hk6 hk7 hk8 hk9 hk10 hk11 hk12 hk13 hkx hk15 hk16) ?_
      show pyUpper c17 ≠ _
      rw [hc17]
      refine base_getD_ne _ (parity_lt _) _ (parity_lt _) (parity_ne ?_)
      have e1 : k0*1 + k1*3 + k2*9 + k3*27 + k4*19 + k5*26 + k6*16 + k7*17 + k8*20 + k9*29 + k10*25 + k11*13 + k12*8 + k13*24 + k14*10 + k15*30 + k16*28 = k0*1 + k1*3 + k2*9 + k3*27 + k4*19 + k5*26 + k6*16 + k7*17 + k8*20 + k9*29 + k10*25 + k11*13 + k12*8 + k13*24 + k15*30 + k16*28 + k14 * 10 := by ring
      have e2 : k0*1 + k1*3 + k2*9 + k3*27 + k4*19 + k5*26 + k6*16 + k7*17 + k8*20 + k9*29 + k10*25 + k11*13 + k12*8 + k13*24 + kx*10 + k15*30 + k16*28 = k0*1 + k1*3 + k2*9 + k3*27 + k4*19 + k5*26 + k6*16 + k7*17 + k8*20 + k9*29 + k10*25 + k11*13 + k12*8 + k13*24 + k15*30 + k16*28 + kx * 10 := by ring
      rw [e1, e2]
      exact mod_term_ne k14 kx (cim_char hk14).1 (cim_char hkx).1
        (fun he => hne he.symm) (by omega) (by omega)
  · show is_credit_code [c0, c1, c2, c3, c4, c5, c6, c7, c8, c9, c10, c11, c12, c13, c14, x, c16, c17] = false
    cases hpx : isBaseClassChar x with
    | false => exact invalid_of_regex_false (by simp [regexMatch, hpx])
    | true =>
      obtain ⟨kx, hkx, hkxlt⟩ := cim_of_mem (class_mem hpx)
      have hne : kx ≠ k15 := by
        intro he
        have h1 := (cim_char hkx).2.1
        rw [he, (cim_char hk15).2.1] at h1
        exact hx h1.symm
      rw [hteq] at hcheck
      have hc17 : pyUpper c17 = BASE_CODE.getD (parityOfTotal (k0*1 + k1*3 + k2*9 + k3*27 + k4*19 + k5*26 + k6*16 + k7*17 + k8*20 + k9*29 + k10*25 + k11*13 + k12*8 + k13*24 + k14*10 + k15*30 + k16*28)) ' ' := hcheck
      refine invalid_of_check_ne (weightedTotal_eval hk0 hk1 hk2 hk3 hk4 hk5 hk6 hk7 hk8 hk9 hk10 hk11 hk12 hk13 hk14 hkx hk16) ?_
      show pyUpper c17 ≠ _
      rw [hc17]
      refine base_getD_ne _ (parity_lt _) _ (parity_lt _) (parity_ne ?_)
      have e1 : k0*1 + k1*3 + k2*9 + k3*27 + k4*19 + k5*26 + k6*16 + k7*17 + k8*20 + k9*29 + k10*25 + k11*13 + k12*8 + k13*24 + k14*10 + k15*30 + k16*28 = k0*1 + k1*3 + k2*9 + k3*27 + k4*19 + k5*26 + k6*16 + k7*17 + k8*20 + k9*29 + k10*25 + k11*13 + k12*8 + k13*24 + k14*10 + k16*28 + k15 * 30 := by ring
      have e2 : k0*1 + k1*3 + k2*9 + k3*27 + k4*19 + k5*26 + k6*16 + k7*17 + k8*20 + k9*29 + k10*25 + k11*13 + k12*8 + k13*24 + k14*10 + kx*30 + k16*28 = k0*1 + k1*3 + k2*9 + k3*27 + k4*19 + k5*26 + k6*16 + k7*17 + k8*20 + k9*29 + k10*25 + k11*13 + k12*8 + k13*24 + k14*10 + k16*28 + kx * 30 := by ring
      rw [e1, e2]
      exact mod_term_ne k15 kx (cim_char hk15).1 (cim_char hkx).1
        (fun he => hne he.symm) (by omega) (by omega)
  · show is_credit_code [c0, c1, c2, c3, c4, c5, c6, c7, c8, c9, c10, c11, c12, c13, c14, c15, x, c17] = false
    cases hpx : isBaseClassChar x with
    | false => exact invalid_of_regex_false (by simp [regexMatch, hpx])
    | true =>
      obtain ⟨kx, hkx, hkxlt⟩ := cim_of_mem (class_mem hpx)
      have hne : kx ≠ k16 := by
        intro he
        have h1 := (cim_char hkx).2.1
        rw [he, (cim_char hk16).2.1] at h1
        exact hx h1.symm
      rw [hteq] at hcheck
      have hc17 : pyUpper c17 = BASE_CODE.getD (parityOfTotal (k0*1 + k1*3 + k2*9 + k3*27 + k4*19 + k5*26 + k6*16 + k7*17 + k8*20 + k9*29 + k10*25 + k11*13 + k12*8 + k13*24 + k14*10 + k15*30 + k16*28)) ' ' := hcheck
      refine invalid_of_check_ne (weightedTotal_eval hk0 hk1 hk2 hk3 hk4 hk5 hk6 hk7 hk8 hk9 hk10 hk11 hk12 hk13 hk14 hk15 hkx) ?_
      show pyUpper c17 ≠ _
      rw [hc17]
      refine base_getD_ne _ (parity_lt _) _ (parity_lt _) (parity_ne ?_)
      have e1 : k0*1 + k1*3 + k2*9 + k3*27 + k4*19 + k5*26 + k6*16 + k7*17 + k8*20 + k9*29 + k10*25 + k11*13 + k12*8 + k13*24 + k14*10 + k15*30 + k16*28 = k0*1 + k1*3 + k2*9 + k3*27 + k4*19 + k5*26 + k6*16 + k7*17 + k8*20 + k9*29 + k10*25 + k11*13 + k12*8 + k13*24 + k14*10 + k15*30 + k16 * 28 := by ring
      have e2 : k0*1 + k1*3 + k2*9 + k3*27 + k4*19 + k5*26 + k6*16 + k7*17 + k8*20 + k9*29 + k10*25 + k11*13 + k12*8 + k13*24 + k14*10 + k15*30 + kx*28 = k0*1 + k1*3 + k2*9 + k3*27 + k4*19 + k5*26 + k6*16 + k7*17 + k8*20 + k9*29 + k10*25 + k11*13 + k12*8 + k13*24 + k14*10 + k15*30 + kx * 28 := by ring
      rw [e1, e2]
      exact mod_term_ne k16 kx (cim_char hk16).1 (cim_char hkx).1
        (fun he => hne he.symm) (by omega) (by omega)

theorem regexMatch_all_mem {s : List Char} (h : regexMatch s = true) :
    ∀ ch ∈ s, (isBaseClassChar ch || pyIsDigit ch) = true := by
  obtain ⟨c0, c1, c2, c3, c4, c5, c6, c7, c8, c9, c10, c11, c12, c13, c14, c15, c16,
    c17, rfl⟩ := regexMatch_shape h
  simp only [regexMatch, Bool.and_eq_true] at h
  intro ch hch
  simp only [List.mem_cons, List.not_mem_nil, or_false] at hch
  rcases hch with rfl|rfl|rfl|rfl|rfl|rfl|rfl|rfl|rfl|rfl|rfl|rfl|rfl|rfl|rfl|rfl|rfl|rfl <;>
    simp_all

theorem length18_not_empty {code : List Char} (h : code.length = 18) :
    (code.isEmpty || code.length != 18) = false := by
  rcases code with _ | ⟨c, code⟩
  · simp at h
  · simp [h]

theorem diagnosisLength (code : List Char) (h : code.length ≠ 18) :
    get_error_reason code = .badLength := by
  unfold get_error_reason
  rw [if_pos (by simp [h])]

theorem diagnosisPattern (code : List Char) (hlen : code.length = 18)
    (hs : is_credit_code_simple code = false) :
    (∃ l, get_error_reason code = .badChars l ∧ l ≠ [] ∧ l.Nodup ∧
        (∀ ch, ch ∈ l ↔ ch ∈ pyUpperStr code ∧ ch ∉ BASE_CODE)) ∨
      (get_error_reason code = .badFormat ∧
        ∀ ch ∈ pyUpperStr code, ch ∈ BASE_CODE) := by
  unfold get_error_reason
  rw [if_neg (by rw [length18_not_empty hlen]; exact Bool.noConfusion), if_pos hs]
  set bad := (pyUpperStr code).filter (fun ch => !BASE_CODE.contains ch) with hbad
  cases hb : bad.isEmpty with
  | false =>
    left
    refine ⟨bad.dedup, by simp [hb], ?_, List.nodup_dedup bad, ?_⟩
    · rw [List.isEmpty_eq_false] at hb
      intro hnil
      rw [(List.dedup_eq_nil bad).mp hnil] at hb
      exact hb rfl
    · intro ch
      rw [List.mem_dedup, hbad, List.mem_filter]
      constructor
      · rintro ⟨h1, h2⟩
        refine ⟨h1, ?_⟩
        intro hmem
        rw [(by exact List.elem_iff.mpr hmem : BASE_CODE.contains ch = true)] at h2
        exact Bool.noConfusion h2
      · rintro ⟨h1, h2⟩
        refine ⟨h1, ?_⟩
        cases hc : BASE_CODE.contains ch with
        | false => rfl
        | true => exact absurd (List.elem_iff.mp hc) h2
  | true =>
    right
    refine ⟨by simp [hb], ?_⟩
    intro ch hch
    rw [List.isEmpty_iff] at hb
    have hall := List.filter_eq_nil_iff.mp (hbad ▸ hb)
    have h2 := hall ch hch
    simp only [Bool.not_eq_true'] at h2
    exact List.elem_iff.mp (by simpa using h2)

theorem diagnosisChecksum (code : List Char) (hs : is_credit_code_simple code = true)
    (t : Nat) (ht : weightedTotal code = some t) :
    get_error_reason code = .badChecksum (BASE_CODE.getD (parityOfTotal t) ' ') := by
  have hlen : code.length = 18 := regex_len (by rw [← simple_eq_regex]; exact hs)
  have hp : get_parity_bit code = Int.ofNat (parityOfTotal t) := by
    unfold get_parity_bit
    rw [if_neg (by omega), ht]
  unfold get_error_reason
  rw [if_neg (by rw [length18_not_empty hlen]; exact Bool.noConfusion),
    if_neg (by rw [hs]; exact Bool.noConfusion), if_pos (by rw [hp]; exact Int.ofNat_nonneg _)]
  rw [hp]
  rfl

set_option maxRecDepth 8000 in
theorem excluded_fails_tests {ch : Char}
    (h : ch ∈ (['I', 'O', 'S', 'V', 'Z'] : List Char)) :
    isBaseClassChar ch = false ∧ pyIsDigit ch = false ∧ pyUpperChar ch = [ch] ∧
    ch ∉ BASE_CODE := by
  fin_cases h <;> refine ⟨by decide, by decide, by decide, by decide⟩

theorem diagnosisExcluded (code : List Char) (hlen : code.length = 18)
    (ch : Char) (hex : ch ∈ (['I', 'O', 'S', 'V', 'Z'] : List Char))
    (hch : ch ∈ code) :
    ∃ l, get_error_reason code = .badChars l ∧ ch ∈ l ∧
      (∀ c, c ∈ l ↔ c ∈ pyUpperStr code ∧ c ∉ BASE_CODE) := by
  obtain ⟨hclass, hdig, hup, hmem⟩ := excluded_fails_tests hex
  have hsimple : is_credit_code_simple code = false := by
    rw [simple_eq_regex]
    cases hr : regexMatch code
    · rfl
    · have h2 := regexMatch_all_mem hr ch hch
      rw [hclass, hdig] at h2
      exact absurd h2 (by decide)
  have hchup : ch ∈ pyUpperStr code :=
    List.mem_flatMap.mpr ⟨ch, hch, by rw [hup]; exact List.mem_singleton.mpr rfl⟩
  rcases diagnosisPattern code hlen hsimple with ⟨l, hl, _, _, hiff⟩ | ⟨_, hall⟩
  · exact ⟨l, hl, (hiff ch).mpr ⟨hchup, hmem⟩, hiff⟩
  · exact absurd (hall ch hchup) hmem

set_option maxHeartbeats 800000 in
theorem ascii_digits_no_failure (s : List Char) (hr : regexMatch s = true)
    (hd : ∀ i, i < 8 → 2 ≤ i → isAsciiDigit (s.getD i ' ') = true) :
    (∀ i, i < 17 → ∃ k, CODE_INDEX_MAP (s.getD i ' ') = some k) ∧
    0 ≤ get_parity_bit s ∧ get_error_reason s ≠ .unknown := by
  have hrr := hr
  obtain ⟨c0, c1, c2, c3, c4, c5, c6, c7, c8, c9, c10, c11, c12, c13, c14, c15, c16,
    c17, rfl⟩ := regexMatch_shape hr
  simp only [regexMatch, Bool.and_eq_true] at hr
  obtain ⟨⟨⟨⟨⟨⟨⟨⟨⟨⟨⟨⟨⟨⟨⟨⟨⟨ha1, ha2⟩, hd1⟩, hd2⟩, hd3⟩, hd4⟩, hd5⟩, hd6⟩, hb1⟩, hb2⟩,
    hb3⟩, hb4⟩, hb5⟩, hb6⟩, hb7⟩, hb8⟩, hb9⟩, hb10⟩ := hr
  have had1 : isAsciiDigit c2 = true := hd 2 (by omega) (by omega)
  have had2 : isAsciiDigit c3 = true := hd 3 (by omega) (by omega)
  have had3 : isAsciiDigit c4 = true := hd 4 (by omega) (by omega)
  have had4 : isAsciiDigit c5 = true := hd 5 (by omega) (by omega)
  have had5 : isAsciiDigit c6 = true := hd 6 (by omega) (by omega)
  have had6 : isAsciiDigit c7 = true := hd 7 (by omega) (by omega)
  obtain ⟨k0, hk0, hlt0⟩ := cim_of_mem (class_mem ha1)
  obtain ⟨k1, hk1, hlt1⟩ := cim_of_mem (class_mem ha2)
  obtain ⟨k2, hk2, hlt2⟩ := cim_of_mem (class_mem (ascii_digit_class had1))
  obtain ⟨k3, hk3, hlt3⟩ := cim_of_mem (class_mem (ascii_digit_class had2))
  obtain ⟨k4, hk4, hlt4⟩ := cim_of_mem (class_mem (ascii_digit_class had3))
  obtain ⟨k5, hk5, hlt5⟩ := cim_of_mem (class_mem (ascii_digit_class had4))
  obtain ⟨k6, hk6, hlt6⟩ := cim_of_mem (class_mem (ascii_digit_class had5))
  obtain ⟨k7, hk7, hlt7⟩ := cim_of_mem (class_mem (ascii_digit_class had6))
  obtain ⟨k8, hk8, hlt8⟩ := cim_of_mem (class_mem hb1)
  obtain ⟨k9, hk9, hlt9⟩ := cim_of_mem (class_mem hb2)
  obtain ⟨k10, hk10, hlt10⟩ := cim_of_mem (class_mem hb3)
  obtain ⟨k11, hk11, hlt11⟩ := cim_of_mem (class_mem hb4)
  obtain ⟨k12, hk12, hlt12⟩ := cim_of_mem (class_mem hb5)
  obtain ⟨k13, hk13, hlt13⟩ := cim_of_mem (class_mem hb6)
  obtain ⟨k14, hk14, hlt14⟩ := cim_of_mem (class_mem hb7)
  obtain ⟨k15, hk15, hlt15⟩ := cim_of_mem (class_mem hb8)
  obtain ⟨k16, hk16, hlt16⟩ := cim_of_mem (class_mem hb9)
  have hw : weightedTotal
      [c0, c1, c2, c3, c4, c5, c6, c7, c8, c9, c10, c11, c12, c13, c14, c15, c16, c17]
      = some (k0*1 + k1*3 + k2*9 + k3*27 + k4*19 + k5*26 + k6*16 + k7*17 + k8*20 +
          k9*29 + k10*25 + k11*13 + k12*8 + k13*24 + k14*10 + k15*30 + k16*28) :=
    weightedTotal_eval hk0 hk1 hk2 hk3 hk4 hk5 hk6 hk7 hk8 hk9 hk10 hk11 hk12 hk13 hk14 hk15 hk16
  have hp : get_parity_bit
      [c0, c1, c2, c3, c4, c5, c6, c7, c8, c9, c10, c11, c12, c13, c14, c15, c16, c17]
      = Int.ofNat (parityOfTotal (k0*1 + k1*3 + k2*9 + k3*27 + k4*19 + k5*26 + k6*16 +
          k7*17 + k8*20 + k9*29 + k10*25 + k11*13 + k12*8 + k13*24 + k14*10 + k15*30 +
          k16*28)) := by
    unfold get_parity_bit
    rw [if_neg (by simp), hw]
  refine ⟨?_, by rw [hp]; exact Int.ofNat_nonneg _, ?_⟩
  · intro i hi
    interval_cases i
    · exact ⟨k0, hk0⟩
    · exact ⟨k1, hk1⟩
    · exact ⟨k2, hk2⟩
    · exact ⟨k3, hk3⟩
    · exact ⟨k4, hk4⟩
    · exact ⟨k5, hk5⟩
    · exact ⟨k6, hk6⟩
    · exact ⟨k7, hk7⟩
    · exact ⟨k8, hk8⟩
    · exact ⟨k9, hk9⟩
    · exact ⟨k10, hk10⟩
    · exact ⟨k11, hk11⟩
    · exact ⟨k12, hk12⟩
    · exact ⟨k13, hk13⟩
    · exact ⟨k14, hk14⟩
    · exact ⟨k15, hk15⟩
    · exact ⟨k16, hk16⟩
  · rw [diagnosisChecksum _ (by rw [simple_eq_regex]; exact hrr) _ hw]
    exact fun h => ErrorReason.noConfusion h

/-- C4 (amended): the failure diagnosis applies reasons in fixed
precedence: length not 18 gives the length reason; an 18-character code
failing the pattern gives the distinct set of characters of the fully
upper-cased code (Python `str.upper()`, whose full case mappings can
expand one character into several) that lie outside the 31-symbol
alphabet, or the generic format reason when that set is empty; a code
passing the pattern whose first 17 characters all have alphabet values
gives the single expected check character; and an 18-character string
containing any of I, O, S, V, Z is diagnosed with a distinct-character set
containing exactly the upper-cased code's characters outside the alphabet,
those excluded letters included.  (The original claim's third branch is
unconditional; it fails for structurally passing codes with non-ASCII
digits, which reach a residual unknown reason.) -/
theorem error_reason_precedence :
    (∀ code : List Char, code.length ≠ 18 → get_error_reason code = .badLength) ∧
    (∀ code : List Char, code.length = 18 → is_credit_code_simple code = false →
      (∃ l, get_error_reason code = .badChars l ∧ l ≠ [] ∧ l.Nodup ∧
          (∀ ch, ch ∈ l ↔ ch ∈ pyUpperStr code ∧ ch ∉ BASE_CODE)) ∨
        (get_error_reason code = .badFormat ∧
          ∀ ch ∈ pyUpperStr code, ch ∈ BASE_CODE)) ∧
    (∀ code : List Char, is_credit_code_simple code = true →
      ∀ t, weightedTotal code = some t →
        get_error_reason code = .badChecksum (BASE_CODE.getD (parityOfTotal t) ' ')) ∧
    (∀ code : List Char, code.length = 18 →
      ∀ ch ∈ (['I', 'O', 'S', 'V', 'Z'] : List Char), ch ∈ code →
        ∃ l, get_error_reason code = .badChars l ∧ ch ∈ l ∧
          (∀ c, c ∈ l ↔ c ∈ pyUpperStr code ∧ c ∉ BASE_CODE)) :=
  ⟨diagnosisLength, diagnosisPattern, diagnosisChecksum, diagnosisExcluded⟩

/-- Witness for C4: a 17-character string gets the length reason. -/
theorem error_reason_precedence_witness :
    get_error_reason ("91110108780232398".toList) = .badLength :=
  error_reason_precedence.1 _ (by decide)

/-- C4 counterexample: an invalid 18-character code that passes the
structural pattern (the Arabic-Indic digit `٠` matches Python's `\d`) is
diagnosed with the residual unknown reason, not with an expected check
character and not with a character-set or length reason. -/
theorem diagnosis_unknown_counterexample :
    ("91٠٠٠٠٠٠780232398H".toList).length = 18 ∧
    is_credit_code ("91٠٠٠٠٠٠780232398H".toList) = false ∧
    is_credit_code_simple ("91٠٠٠٠٠٠780232398H".toList) = true ∧
    get_error_reason ("91٠٠٠٠٠٠780232398H".toList) = .unknown := by decide

/-- C9 counterexample: an 18-character string that passes the structural
pattern but whose position-2 character (Arabic-Indic `٠`) has no alphabet
value: the lookup-failure branch of the checksum step is reached
(`get_parity_bit` returns -1) and the diagnosis falls into the residual
unknown branch. -/
theorem structural_pass_lookup_fails :
    regexMatch ("91٠٠٠٠٠٠780232398H".toList) = true ∧
    CODE_INDEX_MAP '٠' = none ∧
    get_parity_bit ("91٠٠٠٠٠٠780232398H".toList) = -1 ∧
    get_error_reason ("91٠٠٠٠٠٠780232398H".toList) = ErrorReason.unknown := by decide

/-- C9 (amended): for an 18-character string passing the structural
pattern whose digit positions 2-7 hold ASCII digits, every one of the
first 17 characters has a value in the alphabet, so the checksum step's
lookup-failure branch (and the diagnosis's residual unknown branch) is
unreachable.  Without the ASCII restriction this fails, because the
pattern's `\d` also accepts non-ASCII Unicode digits. -/
theorem structural_ascii_no_lookup_failure (s : List Char)
    (hr : regexMatch s = true)
    (hd : ∀ i, i < 8 → 2 ≤ i → isAsciiDigit (s.getD i ' ') = true) :
    (∀ i, i < 17 → ∃ k, CODE_INDEX_MAP (s.getD i ' ') = some k) ∧
    0 ≤ get_parity_bit s ∧ get_error_reason s ≠ .unknown :=
  ascii_digits_no_failure s hr hd

/-- Witness for C9: the known valid code has nonnegative parity index. -/
theorem structural_ascii_no_lookup_failure_witness :
    0 ≤ get_parity_bit ("911101087802323985".toList) :=
  (structural_ascii_no_lookup_failure ("911101087802323985".toList) (by decide)
    (by decide)).2.1

/-- C8 counterexample: the claim's known concrete case
`91110108780232398H` is rejected by the code: the expected check character
for its first 17 characters is `'5'`, not `'H'`, so the claimed
acceptance fails. -/
theorem known_code_counterexample :
    is_credit_code ("91110108780232398H".toList) = false ∧
    get_parity_bit ("91110108780232398H".toList) = Int.ofNat 5 ∧
    get_error_reason ("91110108780232398H".toList) = .badChecksum '5' := by decide

/-- C8 (amended): the concrete code `911101087802323985` (the same first
17 characters with the check character the algorithm computes) is accepted
as Valid, and replacing its last character with any other symbol of the
31-character alphabet is rejected with the checksum branch reporting `'5'`
as the expected check character. -/
theorem known_code_case :
    is_credit_code ("911101087802323985".toList) = true ∧
    ∀ x ∈ BASE_CODE, x ≠ '5' →
      is_credit_code (("911101087802323985".toList).set 17 x) = false ∧
      get_error_reason (("911101087802323985".toList).set 17 x) =
        .badChecksum '5' := by decide

/-- Witness for C8: instantiating the flipped-check-character case at
`'A'`. -/
theorem known_code_case_witness :
    is_credit_code (("911101087802323985".toList).set 17 'A') = false :=
  (known_code_case.2 'A' (by decide) (by decide)).1

/-- C10 counterexample: a code accepted as Valid stops being Valid when
only its 18th character is replaced by the lowercase form of the same
letter: the structural pattern admits only uppercase letters, also at the
check-digit position, so the case-insensitive check-digit comparison never
sees a lowercase character. -/
theorem lowercase_checkdigit_counterexample :
    is_credit_code ("91110000100000825Q".toList) = true ∧
    pyUpper 'q' = 'Q' ∧
    is_credit_code (("91110000100000825Q".toList).set 17 'q') = false := by decide

/-- C10 (amended): the public interface is fully case-sensitive: an
18-character string containing an ASCII lowercase letter at any position
(0-17, the check digit included) is rejected by `validate`, because the
structural pattern admits only uppercase letters; the case-insensitive
comparison of the 18th character is unreachable for lowercase input. -/
theorem lowercase_rejected (s : List Char) (c : Char) (hc : c ∈ s)
    (hlow : 97 ≤ c.toNat) (hhigh : c.toNat ≤ 122) :
    is_credit_code s = false := by
  cases hv : is_credit_code s
  · rfl
  · exfalso
    obtain ⟨t, hr, _, _⟩ := valid_iff.mp hv
    have h2 := regexMatch_all_mem hr c hc
    simp [isBaseClassChar, pyIsDigit, ndRanges] at h2
    omega

/-- Witness for C10: a lowercase check digit is rejected. -/
theorem lowercase_rejected_witness :
    is_credit_code ("91110000100000825q".toList) = false :=
  lowercase_rejected ("91110000100000825q".toList) 'q' (by decide) (by decide)
    (by decide)

/-- Witness for C2: corrupting the first character of a valid code makes
it invalid. -/
theorem single_corruption_invalidates_witness :
    is_credit_code (("911101087802323985".toList).set 0 '0') = false :=
  single_corruption_invalidates ("911101087802323985".toList) 0 '0' (by decide)
    (by decide) (by decide)

/-- Witness for C3: the parity formula evaluated on the known valid
code. -/
theorem parity_index_formula_witness :
    get_parity_bit ("911101087802323985".toList) =
      Int.ofNat (specParity (specWeightedSum ("911101087802323985".toList))) :=
  (parity_index_formula ("911101087802323985".toList) 1204 (by decide) (by decide)).1

/-- C5: on every input with at least one token, the batch result
partitions the tokens: the total equals the token count and the sum of the
two partition sizes, each partition is the order-preserving filter of the
tokens by their validation outcome, and merging the two partitions back
gives a permutation of the token sequence. -/
theorem batch_partition (text : List Char) (h : tokenize text ≠ []) :
    (validate_credit_codes text).total = some (tokenize text).length ∧
    (validate_credit_codes text).total =
      some ((validate_credit_codes text).valid.length +
        (validate_credit_codes text).invalid.length) ∧
    (validate_credit_codes text).valid = (tokenize text).filter is_credit_code ∧
    (validate_credit_codes text).invalid =
      (tokenize text).filter (fun c => !is_credit_code c) ∧
    ((validate_credit_codes text).valid ++ (validate_credit_codes text).invalid).Perm
      (tokenize text) := by
  have hne : (tokenize text).isEmpty = false := by
    rw [List.isEmpty_eq_false]
    exact h
  have hrec : validate_credit_codes text =
      { total := some (tokenize text).length,
        valid := (tokenize text).filter is_credit_code,
        invalid := (tokenize text).filter (fun c => !is_credit_code c),
        error := none } := by
    unfold validate_credit_codes
    rw [if_neg (by simp [hne]), List.partition_eq_filter_filter]
    rfl
  rw [hrec]
  have hp := List.filter_append_perm is_credit_code (tokenize text)
  refine ⟨rfl, ?_, rfl, rfl, hp⟩
  have hl := hp.length_eq
  rw [List.length_append] at hl
  rw [← hl]

/-- Witness for C5 at a two-token input. -/
theorem batch_partition_witness :
    (validate_credit_codes ("911101087802323985 x".toList)).total = some 2 :=
  (batch_partition ("911101087802323985 x".toList) (by decide)).1

/-- C6: the batch-level error is present exactly when tokenizing yields no
candidates, in which case both partitions are empty and the error is the
fixed message; any input producing at least one token gets `error = none`,
malformed tokens being classified per item. -/
theorem batch_error_iff (text : List Char) :
    ((validate_credit_codes text).error ≠ none ↔ tokenize text = []) ∧
    (tokenize text = [] →
      (validate_credit_codes text).valid = [] ∧
      (validate_credit_codes text).invalid = [] ∧
      (validate_credit_codes text).error = some "没有找到有效的信用代码") ∧
    (tokenize text ≠ [] → (validate_credit_codes text).error = none) := by
  unfold validate_credit_codes
  by_cases h : tokenize text = []
  · simp [h]
  · have hne : (tokenize text).isEmpty = false := by
      rw [List.isEmpty_eq_false]; exact h
    simp [hne, h]

/-- Witness for C6 at the empty input and a whitespace-only input. -/
theorem batch_error_iff_witness :
    (validate_credit_codes ("".toList)).error = some "没有找到有效的信用代码" ∧
    (validate_credit_codes ("   \n\n".toList)).valid = [] ∧
    (validate_credit_codes ("x".toList)).error = none :=
  ⟨((batch_error_iff ("".toList)).2.1 (by decide)).2.2,
   ((batch_error_iff ("   \n\n".toList)).2.1 (by decide)).1,
   (batch_error_iff ("x".toList)).2.2 (by decide)⟩

theorem space_delim {c : Char} (h : isPySpace c = true) : isDelimChar c = true := by
  simp [isDelimChar, h]

theorem boundary_delim {c : Char} (h : isLineBoundary c = true) :
    isDelimChar c = true := by
  simp only [isLineBoundary, Bool.or_eq_true, decide_eq_true_eq] at h
  simp only [isDelimChar, isPySpace, Bool.or_eq_true, Bool.and_eq_true,
    decide_eq_true_eq]
  omega

theorem dropWhile_no (p : Char → Bool) (l : List Char) (h : ∀ c ∈ l, p c = false) :
    l.dropWhile p = l := by
  cases l with
  | nil => rfl
  | cons c cs =>
    rw [List.dropWhile_cons, h c (by simp)]
    simp

theorem pyStrip_id {l : List Char} (h : ∀ c ∈ l, isPySpace c = false) :
    pyStrip l = l := by
  unfold pyStrip
  rw [dropWhile_no _ _ h, dropWhile_no, List.reverse_reverse]
  intro c hc
  exact h c (by simpa using hc)

theorem splitOnP_all_false {p : Char → Bool} {l : List Char}
    (h : ∀ c ∈ l, p c = false) : List.splitOnP p l = [l] := by
  induction l with
  | nil => exact List.splitOnP_nil p
  | cons c cs ih =>
    rw [List.splitOnP_cons, h c (by simp)]
    rw [ih fun x hx => h x (by simp [hx])]
    simp [List.modifyHead_cons]

theorem modifyHead_append_left {f : List Char → List Char}
    {l1 : List (List Char)} (l2 : List (List Char)) (h : l1 ≠ []) :
    List.modifyHead f (l1 ++ l2) = List.modifyHead f l1 ++ l2 := by
  cases l1 with
  | nil => exact absurd rfl h
  | cons a t => simp [List.modifyHead_cons]

theorem splitOnP_append_delim {p : Char → Bool} {r : Char} (hr : p r = true) :
    ∀ (A B : List Char),
      List.splitOnP p (A ++ r :: B) = List.splitOnP p A ++ List.splitOnP p B := by
  intro A
  induction A with
  | nil =>
    intro B
    simp only [List.nil_append, List.splitOnP_cons, hr, if_pos rfl, List.splitOnP_nil]
    rfl
  | cons a A2 ih =>
    intro B
    rw [List.cons_append, List.splitOnP_cons, List.splitOnP_cons]
    cases hp : p a
    · simp only [Bool.false_eq_true, if_false]
      rw [ih B, modifyHead_append_left _ (List.splitOnP_ne_nil p A2)]
    · simp only [if_pos rfl]
      rw [ih B]
      rfl

theorem reSplitAux_frag_no_delim :
    ∀ (l : List Char) (inRun : Bool) (acc : List Char),
      (∀ c ∈ acc, isDelimChar c = false) →
      ∀ f ∈ reSplitAux inRun acc l, ∀ c ∈ f, isDelimChar c = false := by
  intro l
  induction l with
  | nil =>
    intro inRun acc hacc f hf c hc
    simp only [reSplitAux, List.mem_cons, List.not_mem_nil, or_false] at hf
    subst hf
    exact hacc c (by simpa using hc)
  | cons a rest ih =>
    intro inRun acc hacc f hf c hc
    by_cases hd : isDelimChar a = true
    · rw [show reSplitAux inRun acc (a :: rest) =
          if inRun then reSplitAux true acc rest
          else acc.reverse :: reSplitAux true [] rest by simp [reSplitAux, hd]] at hf
      cases inRun with
      | true =>
        rw [if_pos rfl] at hf
        exact ih true acc hacc f hf c hc
      | false =>
        rw [if_neg (by simp)] at hf
        rcases List.mem_cons.mp hf with rfl | hf2
        · exact hacc c (by simpa using hc)
        · exact ih true [] (by simp) f hf2 c hc
    · rw [show reSplitAux inRun acc (a :: rest) = reSplitAux false (a :: acc) rest by
          simp [reSplitAux, hd]] at hf
      refine ih false (a :: acc) ?_ f hf c hc
      intro x hx
      rcases List.mem_cons.mp hx with rfl | hx2
      · exact Bool.not_eq_true _ ▸ (by simpa using hd)
      · exact hacc x hx2

theorem reSplitAux_spec :
    ∀ l : List Char,
      (∀ acc : List Char,
        (reSplitAux false acc l).filter (fun t => !t.isEmpty)
          = (List.modifyHead (fun t => acc.reverse ++ t)
              (List.splitOnP isDelimChar l)).filter (fun t => !t.isEmpty)) ∧
      ((reSplitAux true [] l).filter (fun t => !t.isEmpty)
          = (List.splitOnP isDelimChar l).filter (fun t => !t.isEmpty)) := by
  intro l
  induction l with
  | nil =>
    constructor
    · intro acc
      simp [reSplitAux, List.splitOnP_nil, List.modifyHead_cons]
    · simp [reSplitAux, List.splitOnP_nil]
  | cons c rest ih =>
    obtain ⟨ihA, ihB⟩ := ih
    constructor
    · intro acc
      cases hd : isDelimChar c
      · rw [show reSplitAux false acc (c :: rest) = reSplitAux false (c :: acc) rest by
            simp [reSplitAux, hd]]
        rw [ihA (c :: acc), List.splitOnP_cons, hd]
        simp only [Bool.false_eq_true, if_false]
        rw [show List.modifyHead (fun t => acc.reverse ++ t)
              (List.modifyHead (List.cons c) (List.splitOnP isDelimChar rest))
            = List.modifyHead (fun t => acc.reverse ++ (c :: t))
              (List.splitOnP isDelimChar rest) by
          cases List.splitOnP isDelimChar rest <;> simp [List.modifyHead]]
        rw [show List.modifyHead (fun t => (c :: acc).reverse ++ t)
              (List.splitOnP isDelimChar rest)
            = List.modifyHead (fun t => acc.reverse ++ (c :: t))
              (List.splitOnP isDelimChar rest) by
          cases List.splitOnP isDelimChar rest <;> simp [List.modifyHead]]
      · rw [show reSplitAux false acc (c :: rest) =
            acc.reverse :: reSplitAux true [] rest by simp [reSplitAux, hd]]
        rw [List.splitOnP_cons, hd, if_pos rfl, List.modifyHead_cons]
        rw [List.filter_cons, List.filter_cons, List.append_nil, ihB]
    · cases hd : isDelimChar c
      · rw [show reSplitAux true [] (c :: rest) = reSplitAux false [c] rest by
            simp [reSplitAux, hd]]
        rw [ihA [c], List.splitOnP_cons, hd]
        simp only [Bool.false_eq_true, if_false]
        rw [show List.modifyHead (fun t => List.reverse [c] ++ t)
              (List.splitOnP isDelimChar rest)
            = List.modifyHead (List.cons c) (List.splitOnP isDelimChar rest) by
          cases List.splitOnP isDelimChar rest <;> simp [List.modifyHead]]
      · rw [show reSplitAux true [] (c :: rest) = reSplitAux true [] rest by
            simp [reSplitAux, hd]]
        rw [List.splitOnP_cons, hd, if_pos rfl, List.filter_cons]
        simp only [List.isEmpty_nil, Bool.not_true, Bool.false_eq_true, if_false]
        exact ihB

theorem perLine_eq (line : List Char) :
    ((reSplitDelim line).map pyStrip).filter (fun t => !t.isEmpty)
      = (List.splitOnP isDelimChar line).filter (fun t => !t.isEmpty) := by
  have hfrag := reSplitAux_frag_no_delim line false [] (by simp)
  have hmap : (reSplitAux false [] line).map pyStrip = reSplitAux false [] line := by
    have h2 : (reSplitAux false [] line).map pyStrip
        = (reSplitAux false [] line).map id :=
      List.map_congr_left fun f hf => pyStrip_id fun c hc => by
        have hnd := hfrag f hf c hc
        cases hs : isPySpace c
        · rfl
        · rw [space_delim hs] at hnd
          exact Bool.noConfusion hnd
    rw [h2, List.map_id]
  unfold reSplitDelim
  rw [hmap, (reSplitAux_spec line).1 []]
  simp only [List.reverse_nil, List.nil_append]
  rw [show List.modifyHead (fun t => t) (List.splitOnP isDelimChar line)
      = List.splitOnP isDelimChar line by
    cases List.splitOnP isDelimChar line <;> simp [List.modifyHead]]

theorem splitlinesAux_spec :
    ∀ l : List Char,
      (∀ acc : List Char,
        ((splitlinesAux false acc l).flatMap fun line =>
            ((reSplitDelim line).map pyStrip).filter fun t => !t.isEmpty)
          = (List.splitOnP isDelimChar (acc.reverse ++ l)).filter
              fun t => !t.isEmpty) ∧
      (((splitlinesAux true [] l).flatMap fun line =>
            ((reSplitDelim line).map pyStrip).filter fun t => !t.isEmpty)
          = (List.splitOnP isDelimChar l).filter fun t => !t.isEmpty) := by
  intro l
  induction l with
  | nil =>
    constructor
    · intro acc
      cases hacc : acc.isEmpty
      · rw [show splitlinesAux false acc [] = [acc.reverse] by
            simp [splitlinesAux, hacc]]
        simp only [List.flatMap_cons, List.flatMap_nil, List.append_nil]
        rw [perLine_eq]
      · rw [List.isEmpty_iff] at hacc
        subst hacc
        rw [show splitlinesAux false [] [] = [] by simp [splitlinesAux]]
        simp [List.splitOnP_nil]
    · rw [show splitlinesAux true [] ([] : List Char) = [] by simp [splitlinesAux]]
      simp [List.splitOnP_nil]
  | cons c rest ih =>
    obtain ⟨ihA, ihB⟩ := ih
    have hassoc : ∀ acc : List Char,
        (c :: acc).reverse ++ rest = acc.reverse ++ (c :: rest) := by
      intro acc
      simp
    constructor
    · intro acc
      cases hb : isLineBoundary c
      · rw [show splitlinesAux false acc (c :: rest)
            = splitlinesAux false (c :: acc) rest by simp [splitlinesAux, hb]]
        rw [ihA (c :: acc), hassoc]
      · rw [show splitlinesAux false acc (c :: rest)
            = acc.reverse :: splitlinesAux (decide (c = '\r')) [] rest by
            simp [splitlinesAux, hb]]
        rw [List.flatMap_cons, perLine_eq]
        rw [splitOnP_append_delim (boundary_delim hb) acc.reverse rest,
          List.filter_append]
        by_cases hcr : c = '\r'
        · rw [show decide (c = '\r') = true by simp [hcr], ihB]
        · rw [show decide (c = '\r') = false by simp [hcr], ihA []]
          simp
    · by_cases hn : c = '\n'
      · subst hn
        rw [show splitlinesAux true [] ('\n' :: rest)
            = splitlinesAux false [] rest by simp [splitlinesAux]]
        rw [ihA []]
        rw [show List.splitOnP isDelimChar ('\n' :: rest)
            = [] :: List.splitOnP isDelimChar rest by
          rw [List.splitOnP_cons, show isDelimChar '\n' = true by decide, if_pos rfl]]
        rw [List.filter_cons]
        simp
      · cases hb : isLineBoundary c
        · rw [show splitlinesAux true [] (c :: rest)
              = splitlinesAux false [c] rest by simp [splitlinesAux, hb, hn]]
          rw [ihA [c]]
          simp
        · rw [show splitlinesAux true [] (c :: rest)
              = [] :: splitlinesAux (decide (c = '\r')) [] rest by
              simp [splitlinesAux, hb, hn]]
          rw [List.flatMap_cons]
          rw [show ((reSplitDelim ([] : List Char)).map pyStrip).filter
              (fun t => !t.isEmpty) = [] by decide]
          rw [List.nil_append]
          rw [show List.splitOnP isDelimChar (c :: rest)
              = [] :: List.splitOnP isDelimChar rest by
            rw [List.splitOnP_cons, boundary_delim hb, if_pos rfl]]
          rw [List.filter_cons]
          simp only [List.isEmpty_nil, Bool.not_true, Bool.false_eq_true, if_false]
          by_cases hcr : c = '\r'
          · rw [show decide (c = '\r') = true by simp [hcr], ihB]
          · rw [show decide (c = '\r') = false by simp [hcr], ihA []]
            simp

theorem tokenize_eq (l : List Char) :
    tokenize l = (List.splitOnP isDelimChar l).filter fun t => !t.isEmpty := by
  have h := (splitlinesAux_spec l).1 []
  simpa [tokenize, pySplitlines] using h

/-- C7: the tokenizer splits its input on runs of one or more delimiter
characters (ASCII comma, full-width comma, any whitespace including
newlines) treated as a single separator, discards fragments that are empty
after trimming, preserves first-occurrence order and never deduplicates:
it equals splitting at every delimiter character and keeping the nonempty
fragments; and on the claim's concrete examples it produces exactly the
stated token sequences. -/
theorem tokenize_spec :
    (∀ text : List Char,
      tokenize text = (List.splitOnP isDelimChar text).filter fun t => !t.isEmpty) ∧
    tokenize ("A,B C\nD，E".toList) = [['A'], ['B'], ['C'], ['D'], ['E']] ∧
    tokenize ("".toList) = [] ∧
    tokenize ("   \n\n".toList) = [] :=
  ⟨tokenize_eq, by decide, by decide, by decide⟩

end CreditCode
